import Mathlib

set_option maxRecDepth 20000

/-!
Shallow embedding of `src/testjig/production/arm_kinetis_debug.cpp`:
the `ARMKinetisDebug` operations `detect`, `resetHalt`, `peripheralInit`,
`flashMassErase` and `startup`.

The register addresses and bit constants live in headers
(`arm_kinetis_reg.h`, `arm_kinetis_debug.h`) that are outside the visible
sources; they are modelled from the spec as distinct symbolic values.  The
AP transport (`apRead`/`apWrite`/`apReadPoll`), the memory helpers
(`memStore`/`memStoreAndVerify`), `initMemPort` and the logging facility
are the spec's "external collaborators": they are modelled from the spec
as an environment of response functions indexed by a global round-trip
counter (one tick per AP/memory round trip), and every interaction is
recorded in an event trace together with the ambient log level at the
moment it happened.
-/

/-- Modelled from the spec: log level that suppresses diagnostics. -/
def LOG_NONE : Nat := 0

/-- Modelled from the spec: log level of error diagnostics. -/
def LOG_ERROR : Nat := 1

/-- Modelled from the spec: log level of normal progress messages. -/
def LOG_NORMAL : Nat := 2

/-- Modelled from the spec: AP address of the MDM-AP identity register
(a fixed AP address; the numeric value sits in a header outside the
visible sources). -/
def REG_MDM_IDR : Nat := 0x010000FC

/-- Modelled from the spec: AP address of the MDM-AP status register. -/
def REG_MDM_STATUS : Nat := 0x01000000

/-- Modelled from the spec: AP address of the MDM-AP control register. -/
def REG_MDM_CONTROL : Nat := 0x01000004

/-- Modelled from the spec: AP address of the MEM-AP control/status word. -/
def MEM_CSW : Nat := 0x00

/-- Modelled from the spec: AP address of the MEM-AP transfer address register. -/
def MEM_TAR : Nat := 0x04

/-- Modelled from the spec: AP address of the MEM-AP data read/write register. -/
def MEM_DRW : Nat := 0x0C

/-- Modelled from the spec: status bit — mass erase acknowledged / in progress. -/
def REG_MDM_STATUS_FLASH_ERASE_ACK : Nat := 1

/-- Modelled from the spec: status bit — flash controller ready. -/
def REG_MDM_STATUS_FLASH_READY : Nat := 2

/-- Modelled from the spec: status bit — system security (lock) state. -/
def REG_MDM_STATUS_SYS_SECURITY : Nat := 4

/-- Modelled from the spec: status bit — system reset line (active-low) state. -/
def REG_MDM_STATUS_SYS_NRESET : Nat := 8

/-- Modelled from the spec: status bit — mass erase enabled by target policy. -/
def REG_MDM_STATUS_MASS_ERASE_ENABLE : Nat := 32

/-- Modelled from the spec: control bit — request mass erase. -/
def REG_MDM_CONTROL_MASS_ERASE : Nat := 1

/-- Modelled from the spec: control bit — request system reset. -/
def REG_MDM_CONTROL_SYS_RESET_REQ : Nat := 8

/-- Modelled from the spec: control bit — hold the core in reset. -/
def REG_MDM_CONTROL_CORE_HOLD_RESET : Nat := 16

/-- Modelled from the spec: MEM-AP CSW bit — debug software access enable. -/
def CSW_DBGSWENABLE : Nat := 0x80000000

/-- Modelled from the spec: MEM-AP CSW bit — master debug. -/
def CSW_MASTER_DEBUG : Nat := 0x20000000

/-- Modelled from the spec: MEM-AP CSW HPROT field. -/
def CSW_HPROT : Nat := 0x02000000

/-- Modelled from the spec: MEM-AP CSW 32-bit transfer size. -/
def CSW_32BIT : Nat := 0x00000002

/-- Modelled from the spec: MEM-AP CSW no-auto-increment addressing mode. -/
def CSW_ADDRINC_OFF : Nat := 0

/-- Modelled from the spec: memory address of the debug halt control/status
register reached through the MEM-AP window. -/
def REG_SCB_DHCSR : Nat := 0xE000EDF0

/-- Modelled from the spec: memory address of the SIM_SCGC5 clock gating register. -/
def REG_SIM_SCGC5 : Nat := 0x40048038

/-- Modelled from the spec: memory address of the SIM_SCGC6 clock gating register. -/
def REG_SIM_SCGC6 : Nat := 0x4004803C

/-- Modelled from the spec: SCGC6 clock-gate bit for FTM0. -/
def REG_SIM_SCGC6_FTM0 : Nat := 0x01000000

/-- Modelled from the spec: SCGC6 clock-gate bit for FTM1. -/
def REG_SIM_SCGC6_FTM1 : Nat := 0x02000000

/-- Modelled from the spec: SCGC6 clock-gate bit for the flash controller. -/
def REG_SIM_SCGC6_FTFL : Nat := 0x00000001

/-- The C expression `(uint32_t)-1` used as the "all mask bits must be set"
expected value of `apReadPoll`. -/
def EXPECT_ALL : Nat := 0xFFFFFFFF

/-- Modelled from the spec: the default retry budget of the polling
primitive when the caller does not pass one (the value sits in a header
outside the visible sources; no claim depends on its exact value). -/
def DEFAULT_RETRIES : Nat := 50

/-- The retry ceiling of the mass-erase completion poll (the literal
`10000` at source line 177). -/
def erasePollRetries : Nat := 10000

/-- One observable interaction of the core with its external collaborators. -/
inductive Ev where
  | apRead (reg : Nat) (result : Option Nat)
  | apWrite (reg val : Nat) (ok : Bool)
  | memStore (addr val : Nat) (ok : Bool)
  | memStoreAndVerify (addr val : Nat) (ok : Bool)
  | initMemPort
  | logMsg (level : Nat) (msg : String) (args : List (Option Nat))
  | setLog (newLevel : Nat)
deriving DecidableEq

/-- A trace entry: an event together with the ambient process-wide log
level at the moment the event happened. -/
structure TEv where
  lvl : Nat
  ev : Ev
deriving DecidableEq

/-- The external collaborators (transport layer, memory helpers), given as
response functions indexed by the global round-trip counter. -/
structure Env where
  apReadFn : Nat → Nat → Option Nat
  apWriteFn : Nat → Nat → Nat → Bool
  memStoreFn : Nat → Nat → Nat → Bool
  memStoreAndVerifyFn : Nat → Nat → Nat → Bool

/-- The ambient state threaded through the core: the round-trip counter and
the process-wide log level. -/
structure St where
  tick : Nat
  logLevel : Nat
deriving DecidableEq

/-- Single AP register read: one round trip, result supplied by the
environment (`none` models a transport failure). -/
def apRead (env : Env) (st : St) (reg : Nat) : St × List TEv × Option Nat :=
  let r := env.apReadFn st.tick reg
  ({ st with tick := st.tick + 1 }, [⟨st.logLevel, .apRead reg r⟩], r)

/-- Single AP register write: one round trip, success decided by the
environment. -/
def apWrite (env : Env) (st : St) (reg val : Nat) : St × List TEv × Bool :=
  let ok := env.apWriteFn st.tick reg val
  ({ st with tick := st.tick + 1 }, [⟨st.logLevel, .apWrite reg val ok⟩], ok)

/-- Memory-mapped store through the AP: one round trip. -/
def memStore (env : Env) (st : St) (addr val : Nat) : St × List TEv × Bool :=
  let ok := env.memStoreFn st.tick addr val
  ({ st with tick := st.tick + 1 }, [⟨st.logLevel, .memStore addr val ok⟩], ok)

/-- Memory-mapped store-and-verify round trip: succeeds only when the
readback matched what was written (mismatch or transport failure both
surface as `false`). -/
def memStoreAndVerify (env : Env) (st : St) (addr val : Nat) : St × List TEv × Bool :=
  let ok := env.memStoreAndVerifyFn st.tick addr val
  ({ st with tick := st.tick + 1 }, [⟨st.logLevel, .memStoreAndVerify addr val ok⟩], ok)

/-- Reset the MEM-AP addressing window to its default mode (external
collaborator; recorded as an event). -/
def initMemPort (st : St) : St × List TEv :=
  (st, [⟨st.logLevel, .initMemPort⟩])

/-- Emit a diagnostic: the call is recorded in the trace together with the
ambient log level (filtering for display is the external logger's concern). -/
def log (st : St) (level : Nat) (msg : String) (args : List (Option Nat)) :
    St × List TEv :=
  (st, [⟨st.logLevel, .logMsg level msg args⟩])

/-- Set the process-wide log level, returning the previous one
(`setLogLevel(new, saved)` in the source). -/
def setLogLevel (st : St) (newLevel : Nat) : St × List TEv × Nat :=
  ({ st with logLevel := newLevel }, [⟨st.logLevel, .setLog newLevel⟩], st.logLevel)

/-- Outcome of the polling primitive: transport failure, retries exhausted
(carrying the last value read), or first match (carrying it). -/
inductive PollRes where
  | fail
  | timeout (last : Nat)
  | ok (last : Nat)
deriving DecidableEq

def PollRes.isOk : PollRes → Bool
  | .ok _ => true
  | _ => false

/-- Modelled from the spec: the transport layer's polling primitive
`apReadPoll(reg, data, mask, expected, retries)`.  It repeatedly reads
`reg`; a read whose masked value equals the masked expected value succeeds
at once; after `retries` reads without a match it times out, returning the
last value read; a transport failure of any single read aborts the poll
immediately.  (Written with an explicit `Nat.rec` over the retry budget so
that an application with a stuck environment is stuck shallowly; the
unfolding equations `apReadPoll_zero` and `apReadPoll_succ` below recover
the usual recursive reading.) -/
def apReadPoll (env : Env) (reg mask expected : Nat) (retries : Nat) :
    St → St × List TEv × PollRes :=
  Nat.rec
    (fun st => (st, [], PollRes.fail))
    (fun k ih st =>
      let (st1, evs1, r) := apRead env st reg
      match r with
      | none => (st1, evs1, .fail)
      | some v =>
        if v &&& mask = expected &&& mask then
          (st1, evs1, .ok v)
        else if k = 0 then
          (st1, evs1, .timeout v)
        else
          let (st2, evs2, res) := ih st1
          (st2, evs1 ++ evs2, res))
    retries

theorem apReadPoll_zero (env : Env) (reg mask expected : Nat) (st : St) :
    apReadPoll env reg mask expected 0 st = (st, [], PollRes.fail) := rfl

theorem apReadPoll_succ (env : Env) (reg mask expected k : Nat) (st : St) :
    apReadPoll env reg mask expected (k + 1) st =
      (let (st1, evs1, r) := apRead env st reg
       match r with
       | none => (st1, evs1, .fail)
       | some v =>
         if v &&& mask = expected &&& mask then
           (st1, evs1, .ok v)
         else if k = 0 then
           (st1, evs1, .timeout v)
         else
           let (st2, evs2, res) := apReadPoll env reg mask expected k st1
           (st2, evs1 ++ evs2, res)) := rfl

/-- Diagnostic emitted by `detect` on an identity mismatch. -/
def msgUnsupported : String := "ARMKinetisDebug: Did not find a supported MDM-AP peripheral"

/-- `ARMKinetisDebug::detect()`: read the MDM-AP identity register once and
require the single supported signature. -/
def detect (env : Env) (st : St) : St × List TEv × Bool :=
  let (st1, e1, r) := apRead env st REG_MDM_IDR
  match r with
  | none => (st1, e1, false)
  | some idr =>
    if idr ≠ 0x001C0000 then
      let (st2, e2) := log st1 LOG_ERROR msgUnsupported []
      (st2, e1 ++ e2, false)
    else
      (st1, e1, true)

/-- The mask of the phase-3 ("wait for safe state") status poll of
`resetHalt` (source lines 72–75): reset line, flash ready and security
bits together. -/
def MASK_SAFE : Nat :=
  REG_MDM_STATUS_SYS_NRESET ||| REG_MDM_STATUS_FLASH_READY ||| REG_MDM_STATUS_SYS_SECURITY

/-- The expected value of the phase-3 status poll of `resetHalt`: reset
line deasserted and flash ready, with the security bit absent (so it must
read 0 under `MASK_SAFE`). -/
def EXPECTED_SAFE : Nat :=
  REG_MDM_STATUS_SYS_NRESET ||| REG_MDM_STATUS_FLASH_READY

/-- The retry budget of the reset polls of `resetHalt`
(`const unsigned resetRetries = 2000`). -/
def resetRetries : Nat := 2000

/-- The CSW setup word written in phase 4 of `resetHalt`. -/
def cswSetup : Nat :=
  CSW_DBGSWENABLE ||| CSW_MASTER_DEBUG ||| CSW_HPROT ||| CSW_32BIT ||| CSW_ADDRINC_OFF

/-- The debug-key / halt-request pattern written to DHCSR through the DRW
window in the halt race (`0xA05F0003`). -/
def haltRequestPattern : Nat := 0xA05F0003

/-- Success message of `resetHalt`. -/
def msgHaltOk : String := "CPU reset & halt successful. Now in debug mode."

/-- Failure diagnostic of `resetHalt`; the formatted argument is the
`dhcsr` variable. -/
def msgHaltFail : String := "ARMKinetisDebug: Failed to put CPU in debug halt state. (DHCSR: %08x)"

/-- Phase 1 of `resetHalt` (source lines 54–59): put the control register
in a known state and make sure we are not already in the middle of a reset
(poll until `SYS_NRESET` reads 1). -/
def resetHaltPhase1 (env : Env) (st : St) : St × List TEv × Bool :=
  let (st1, e1, ok) := apWrite env st REG_MDM_CONTROL REG_MDM_CONTROL_CORE_HOLD_RESET
  if !ok then
    (st1, e1, false)
  else
    let p := apReadPoll env REG_MDM_STATUS REG_MDM_STATUS_SYS_NRESET
      EXPECT_ALL resetRetries st1
    (p.1, e1 ++ p.2.1, (p.2.2).isOk)

/-- Phase 2 of `resetHalt` (source lines 61–67): request a system reset,
poll until `SYS_NRESET` reads 0, then release the reset request. -/
def resetHaltPhase2 (env : Env) (st : St) : St × List TEv × Bool :=
  let (st1, e1, ok) := apWrite env st REG_MDM_CONTROL REG_MDM_CONTROL_SYS_RESET_REQ
  if !ok then
    (st1, e1, false)
  else
    let p := apReadPoll env REG_MDM_STATUS REG_MDM_STATUS_SYS_NRESET
      0 DEFAULT_RETRIES st1
    if !(p.2.2).isOk then
      (p.1, e1 ++ p.2.1, false)
    else
      let (st3, e3, ok3) := apWrite env p.1 REG_MDM_CONTROL 0
      (st3, e1 ++ p.2.1 ++ e3, ok3)

/-- Phase 3 of `resetHalt` (source lines 69–76): wait until the flash
controller is ready, the system is out of reset and the security bit is
clear — a single status poll with the large reset retry budget. -/
def resetHaltPhase3 (env : Env) (st : St) : St × List TEv × Bool :=
  let p := apReadPoll env REG_MDM_STATUS MASK_SAFE EXPECTED_SAFE resetRetries st
  (p.1, p.2.1, (p.2.2).isOk)

/-- Phase 4 of `resetHalt` (source lines 78–84): set up CSW with no
auto-increment and point TAR at the debug halt control/status register. -/
def resetHaltPhase4 (env : Env) (st : St) : St × List TEv × Bool :=
  let (st1, e1, ok) := apWrite env st MEM_CSW cswSetup
  if !ok then
    (st1, e1, false)
  else
    let (st2, e2, ok2) := apWrite env st1 MEM_TAR REG_SCB_DHCSR
    (st2, e1 ++ e2, ok2)

/-- The halt-race loop of `resetHalt` (source lines 101–113).  `fuel` is
the remaining `haltRetries` count; `dh` is the current content of the
`dhcsr` variable, `none` while it has never been assigned (it is assigned
only by a successful readback).  Returns the final state, the events of
the loop, the remaining retry count at exit and the final `dhcsr`. -/
def haltLoop (env : Env) : Nat → St → Option Nat → St × List TEv × Nat × Option Nat
  | 0, st, dh => (st, [], 0, dh)
  | fuel + 1, st, dh =>
    let (st1, e1, ok) := apWrite env st MEM_DRW haltRequestPattern
    if !ok then
      let (st2, e2, rem, dh2) := haltLoop env fuel st1 dh
      (st2, e1 ++ e2, rem, dh2)
    else
      let (st2, e2, r) := apRead env st1 MEM_DRW
      match r with
      | none =>
        let (st3, e3, rem, dh3) := haltLoop env fuel st2 dh
        (st3, e1 ++ e2 ++ e3, rem, dh3)
      | some v =>
        if v &&& (1 <<< 17) ≠ 0 then
          (st2, e1 ++ e2, fuel, some v)
        else
          let (st3, e3, rem, dh3) := haltLoop env fuel st2 (some v)
          (st3, e1 ++ e2 ++ e3, rem, dh3)

/-- The initial halt-race retry budget (`unsigned haltRetries = 200`). -/
def haltRetriesInit : Nat := 200

/-- Phase 5 of `resetHalt` (source lines 86–125): suppress logging, race
the watchdog for a halt, reinitialize the addressing window, restore the
log level, and report the outcome (success iff retries remained at exit). -/
def resetHaltPhase5 (env : Env) (st : St) : St × List TEv × Bool :=
  let (st1, e1, saved) := setLogLevel st LOG_NONE
  let (st2, e2, rem, dh) := haltLoop env haltRetriesInit st1 none
  let (st3, e3) := initMemPort st2
  let (st4, e4, _) := setLogLevel st3 saved
  if rem ≠ 0 then
    let (st5, e5) := log st4 LOG_NORMAL msgHaltOk []
    (st5, e1 ++ e2 ++ e3 ++ e4 ++ e5, true)
  else
    let (st5, e5) := log st4 LOG_ERROR msgHaltFail [dh]
    (st5, e1 ++ e2 ++ e3 ++ e4 ++ e5, false)

/-- `ARMKinetisDebug::resetHalt()`: the five phases in order, each failure
returning immediately. -/
def resetHalt (env : Env) (st : St) : St × List TEv × Bool :=
  let (st1, e1, ok1) := resetHaltPhase1 env st
  if !ok1 then
    (st1, e1, false)
  else
    let (st2, e2, ok2) := resetHaltPhase2 env st1
    if !ok2 then
      (st2, e1 ++ e2, false)
    else
      let (st3, e3, ok3) := resetHaltPhase3 env st2
      if !ok3 then
        (st3, e1 ++ e2 ++ e3, false)
      else
        let (st4, e4, ok4) := resetHaltPhase4 env st3
        if !ok4 then
          (st4, e1 ++ e2 ++ e3 ++ e4, false)
        else
          let (st5, e5, ok5) := resetHaltPhase5 env st4
          (st5, e1 ++ e2 ++ e3 ++ e4 ++ e5, ok5)

/-- The fixed RAM address of the AHB-AP write test in `peripheralInit`. -/
def ramTestAddr : Nat := 0x20000000

/-- First bit pattern of the AHB-AP write test. -/
def ramPattern1 : Nat := 0x31415927

/-- Second bit pattern of the AHB-AP write test. -/
def ramPattern2 : Nat := 0x76543210

/-- `ARMKinetisDebug::peripheralInit()`: enable the peripheral clock gates,
then prove AHB memory access with two store-and-verify round trips against
a fixed RAM address. -/
def peripheralInit (env : Env) (st : St) : St × List TEv × Bool :=
  let (st1, e1, ok1) := memStore env st REG_SIM_SCGC5 0x00043F82
  if !ok1 then
    (st1, e1, false)
  else
    let (st2, e2, ok2) := memStore env st1 REG_SIM_SCGC6
      (REG_SIM_SCGC6_FTM0 ||| REG_SIM_SCGC6_FTM1 ||| REG_SIM_SCGC6_FTFL)
    if !ok2 then
      (st2, e1 ++ e2, false)
    else
      let (st3, e3, ok3) := memStoreAndVerify env st2 ramTestAddr ramPattern1
      if !ok3 then
        (st3, e1 ++ e2 ++ e3, false)
      else
        let (st4, e4, ok4) := memStoreAndVerify env st3 ramTestAddr ramPattern2
        (st4, e1 ++ e2 ++ e3 ++ e4, ok4)

/-- Diagnostic: flash controller not ready before mass erase. -/
def msgNotReadyBefore : String := "FLASH: Flash controller not ready before mass erase"

/-- Diagnostic: mass erase already in progress. -/
def msgAlreadyInProgress : String := "FLASH: Mass erase already in progress"

/-- Diagnostic: mass erase disabled by target policy. -/
def msgEraseDisabled : String := "FLASH: Mass erase is disabled!"

/-- Progress message: beginning mass erase. -/
def msgBeginning : String := "FLASH: Beginning mass erase operation"

/-- Diagnostic: the erase-acknowledge bit never set (erase failed to begin). -/
def msgNotBegun : String := "FLASH: Timed out waiting for mass erase to begin"

/-- Diagnostic: the mass-erase control bit never self-cleared (erase failed
to complete). -/
def msgNotCompleted : String := "FLASH: Timed out waiting for mass erase to complete"

/-- Diagnostic: flash controller not ready after mass erase. -/
def msgNotReadyAfter : String := "FLASH: Flash controller not ready after mass erase"

/-- Progress message: mass erase complete. -/
def msgEraseComplete : String := "FLASH: Mass erase complete"

/-- Final part of `flashMassErase` (source lines 182–191): re-read Status
and require the flash-ready bit again. -/
def flashMassEraseCheckAfter (env : Env) (st : St) : St × List TEv × Bool :=
  let (st1, e1, r) := apRead env st REG_MDM_STATUS
  match r with
  | none => (st1, e1, false)
  | some status2 =>
    if status2 &&& REG_MDM_STATUS_FLASH_READY = 0 then
      let (st2, e2) := log st1 LOG_ERROR msgNotReadyAfter []
      (st2, e1 ++ e2, false)
    else
      let (st2, e2) := log st1 LOG_NORMAL msgEraseComplete []
      (st2, e1 ++ e2, true)

/-- Middle part of `flashMassErase` (source lines 169–191), entered right
after the combined control write succeeded: the erase-begin poll on the
acknowledge bit, then the completion poll on the self-clearing control
bit, then the final readiness re-check. -/
def flashMassEraseAwait (env : Env) (st : St) : St × List TEv × Bool :=
  let p1 := apReadPoll env REG_MDM_STATUS
    REG_MDM_STATUS_FLASH_ERASE_ACK EXPECT_ALL DEFAULT_RETRIES st
  if !(p1.2.2).isOk then
    let (st2, e2) := log p1.1 LOG_ERROR msgNotBegun []
    (st2, p1.2.1 ++ e2, false)
  else
    let p2 := apReadPoll env REG_MDM_CONTROL
      REG_MDM_CONTROL_MASS_ERASE 0 erasePollRetries p1.1
    if !(p2.2.2).isOk then
      let (st3, e3) := log p2.1 LOG_ERROR msgNotCompleted []
      (st3, p1.2.1 ++ p2.2.1 ++ e3, false)
    else
      let (st3, e3, ok) := flashMassEraseCheckAfter env p2.1
      (st3, p1.2.1 ++ p2.2.1 ++ e3, ok)

/-- `ARMKinetisDebug::flashMassErase()`: precondition checks on Status,
then a single combined control write, the erase-begin poll, the
completion poll on the self-clearing control bit, and a final readiness
re-check. -/
def flashMassErase (env : Env) (st : St) : St × List TEv × Bool :=
  let (st1, e1, r) := apRead env st REG_MDM_STATUS
  match r with
  | none => (st1, e1, false)
  | some status =>
    if status &&& REG_MDM_STATUS_FLASH_READY = 0 then
      let (st2, e2) := log st1 LOG_ERROR msgNotReadyBefore []
      (st2, e1 ++ e2, false)
    else if status &&& REG_MDM_STATUS_FLASH_ERASE_ACK ≠ 0 then
      let (st2, e2) := log st1 LOG_ERROR msgAlreadyInProgress []
      (st2, e1 ++ e2, false)
    else if status &&& REG_MDM_STATUS_MASS_ERASE_ENABLE = 0 then
      let (st2, e2) := log st1 LOG_ERROR msgEraseDisabled []
      (st2, e1 ++ e2, false)
    else
      let (st2, e2) := log st1 LOG_NORMAL msgBeginning []
      let (st3, e3, okW) := apWrite env st2 REG_MDM_CONTROL
        (REG_MDM_CONTROL_CORE_HOLD_RESET ||| REG_MDM_CONTROL_MASS_ERASE)
      if !okW then
        (st3, e1 ++ e2 ++ e3, false)
      else
        let (st4, e4, ok) := flashMassEraseAwait env st3
        (st4, e1 ++ e2 ++ e3 ++ e4, ok)

/-- `ARMKinetisDebug::startup()`: detect, reset-halt and peripheral
bring-up with short-circuit-on-failure semantics. -/
def startup (env : Env) (st : St) : St × List TEv × Bool :=
  let (st1, e1, ok1) := detect env st
  if !ok1 then
    (st1, e1, false)
  else
    let (st2, e2, ok2) := resetHalt env st1
    if !ok2 then
      (st2, e1 ++ e2, false)
    else
      let (st3, e3, ok3) := peripheralInit env st2
      (st3, e1 ++ e2 ++ e3, ok3)

/-- A sample environment: the identity register reads back the supported
signature and everything succeeds. -/
def envGood : Env :=
  ⟨fun _ _ => some 0x001C0000, fun _ _ _ => true, fun _ _ _ => true, fun _ _ _ => true⟩

/-- The initial state used by concrete scenarios: tick 0, normal verbosity. -/
def st0 : St := ⟨0, LOG_NORMAL⟩

/-- An environment whose identity register reads back an unsupported value. -/
def envBadId : Env :=
  ⟨fun _ _ => some 0x001C0001, fun _ _ _ => true, fun _ _ _ => true, fun _ _ _ => true⟩

/-- Is the event a write to the MDM-AP control register? -/
def isCtlWriteEv : Ev → Bool
  | .apWrite reg _ _ => reg == REG_MDM_CONTROL
  | _ => false

/-- Is the event a memory-access-window interaction (a write to CSW or TAR,
or any DRW access)?  These are the accesses belonging to phases 4 and 5 of
`resetHalt`. -/
def isMemAccessEv : Ev → Bool
  | .apWrite reg _ _ => reg == MEM_CSW || reg == MEM_TAR || reg == MEM_DRW
  | .apRead reg _ => reg == MEM_DRW
  | _ => false

/-- Every event of a poll is a read of the polled register, at the ambient
log level of the poll's entry. -/
theorem apReadPoll_events (env : Env) (reg mask expected : Nat) :
    ∀ n st, ∀ te ∈ (apReadPoll env reg mask expected n st).2.1,
      te.lvl = st.logLevel ∧ ∃ res, te.ev = Ev.apRead reg res := by
  intro n
  induction n with
  | zero => intro st te hte; rw [apReadPoll_zero] at hte; simp at hte
  | succ k ih =>
    intro st te hte
    rw [apReadPoll_succ] at hte
    simp only [apRead] at hte
    cases hr : env.apReadFn st.tick reg with
    | none =>
      simp only [hr, List.mem_singleton] at hte
      subst hte; exact ⟨rfl, none, rfl⟩
    | some v =>
      simp only [hr] at hte
      by_cases hv : v &&& mask = expected &&& mask
      · simp only [if_pos hv, List.mem_singleton] at hte
        subst hte; exact ⟨rfl, some v, rfl⟩
      · simp only [if_neg hv] at hte
        by_cases hk : k = 0
        · simp only [if_pos hk, List.mem_singleton] at hte
          subst hte; exact ⟨rfl, some v, rfl⟩
        · simp only [if_neg hk, List.mem_append, List.mem_singleton] at hte
          rcases hte with hte | hte
          · subst hte; exact ⟨rfl, some v, rfl⟩
          · exact ih ⟨st.tick + 1, st.logLevel⟩ te hte

/-- If the environment never serves the polled register a value matching
the mask/expected pattern, a poll of it cannot succeed. -/
theorem apReadPoll_not_ok (env : Env) (reg mask expected : Nat)
    (H : ∀ t v, env.apReadFn t reg = some v → v &&& mask ≠ expected &&& mask) :
    ∀ n st, ((apReadPoll env reg mask expected n st).2.2).isOk = false := by
  intro n
  induction n with
  | zero => intro st; rfl
  | succ k ih =>
    intro st
    rw [apReadPoll_succ]
    simp only [apRead]
    cases hr : env.apReadFn st.tick reg with
    | none => simp only [hr]; rfl
    | some v =>
      have hv := H st.tick v hr
      simp only [hr, if_neg hv]
      by_cases hk : k = 0
      · simp only [if_pos hk]; rfl
      · simp only [if_neg hk]
        exact ih _

/-- C5: `detect` reads the identity register once and succeeds exactly on
the value `0x001C0000`; for every other value it fails, logs the
unsupported-peripheral error, performs no register writes and does not
retry the read.  Both conclusions state the full trace, so the single
read, the absence of any write event and the absence of a second read are
part of the equation. -/
theorem C5_detect_identity (env : Env) (st : St) (v : Nat)
    (h : env.apReadFn st.tick REG_MDM_IDR = some v) :
    (v = 0x001C0000 →
      detect env st = ({ st with tick := st.tick + 1 },
        [⟨st.logLevel, .apRead REG_MDM_IDR (some v)⟩], true)) ∧
    (v ≠ 0x001C0000 →
      detect env st = ({ st with tick := st.tick + 1 },
        [⟨st.logLevel, .apRead REG_MDM_IDR (some v)⟩,
         ⟨st.logLevel, .logMsg LOG_ERROR msgUnsupported []⟩], false)) := by
  constructor <;> intro hv <;> simp [detect, apRead, log, h, hv]

/-- C5 witness: the two branches at the concrete identity values
`0x001C0000` (supported) and `0x001C0001` (unsupported). -/
theorem C5_detect_identity_witness :
    detect envGood st0 = ({ st0 with tick := st0.tick + 1 },
      [⟨st0.logLevel, .apRead REG_MDM_IDR (some 0x001C0000)⟩], true) ∧
    detect envBadId st0 = ({ st0 with tick := st0.tick + 1 },
      [⟨st0.logLevel, .apRead REG_MDM_IDR (some 0x001C0001)⟩,
       ⟨st0.logLevel, .logMsg LOG_ERROR msgUnsupported []⟩], false) :=
  ⟨(C5_detect_identity envGood st0 0x001C0000 rfl).1 rfl,
   (C5_detect_identity envBadId st0 0x001C0001 rfl).2 (by decide)⟩

/-- C8: `peripheralInit` succeeds exactly when the two clock-gate stores
and the two store-and-verify round trips — issued against the fixed RAM
address `0x20000000` with the two distinct patterns `0x31415927` and
`0x76543210`, in this order — all succeed; in particular a failing second
round trip makes it fail even when the first one succeeded. -/
theorem C8_peripheralInit_roundtrips (env : Env) (st : St) :
    ((peripheralInit env st).2.2 = true ↔
      (env.memStoreFn st.tick REG_SIM_SCGC5 0x00043F82 = true ∧
       env.memStoreFn (st.tick + 1) REG_SIM_SCGC6
         (REG_SIM_SCGC6_FTM0 ||| REG_SIM_SCGC6_FTM1 ||| REG_SIM_SCGC6_FTFL) = true ∧
       env.memStoreAndVerifyFn (st.tick + 2) ramTestAddr ramPattern1 = true ∧
       env.memStoreAndVerifyFn (st.tick + 3) ramTestAddr ramPattern2 = true)) ∧
    ramPattern1 ≠ ramPattern2 ∧ ramTestAddr = 0x20000000 ∧
    (env.memStoreFn st.tick REG_SIM_SCGC5 0x00043F82 = true →
     env.memStoreFn (st.tick + 1) REG_SIM_SCGC6
       (REG_SIM_SCGC6_FTM0 ||| REG_SIM_SCGC6_FTM1 ||| REG_SIM_SCGC6_FTFL) = true →
     env.memStoreAndVerifyFn (st.tick + 2) ramTestAddr ramPattern1 = true →
     env.memStoreAndVerifyFn (st.tick + 3) ramTestAddr ramPattern2 = false →
     (peripheralInit env st).2.2 = false) := by
  refine ⟨?_, by decide, by decide, ?_⟩
  · cases h1 : env.memStoreFn st.tick REG_SIM_SCGC5 0x00043F82 <;>
      cases h2 : env.memStoreFn (st.tick + 1) REG_SIM_SCGC6
        (REG_SIM_SCGC6_FTM0 ||| REG_SIM_SCGC6_FTM1 ||| REG_SIM_SCGC6_FTFL) <;>
      cases h3 : env.memStoreAndVerifyFn (st.tick + 2) ramTestAddr ramPattern1 <;>
      cases h4 : env.memStoreAndVerifyFn (st.tick + 3) ramTestAddr ramPattern2 <;>
      simp [peripheralInit, memStore, memStoreAndVerify, h1, h2, h3, h4]
  · intro h1 h2 h3 h4
    simp [peripheralInit, memStore, memStoreAndVerify, h1, h2, h3, h4]

/-- An environment for the C8 witness: both clock-gate stores and the
first store-and-verify round trip succeed, the second round trip fails. -/
def envVerify2Fails : Env :=
  ⟨fun _ _ => some 0, fun _ _ _ => true, fun _ _ _ => true, fun t _ _ => t ≠ 3⟩

/-- C8 witness: at `envVerify2Fails` the first round trip succeeds and the
second fails, and `peripheralInit` fails. -/
theorem C8_peripheralInit_roundtrips_witness :
    (peripheralInit envVerify2Fails st0).2.2 = false :=
  (C8_peripheralInit_roundtrips envVerify2Fails st0).2.2.2 rfl rfl
    (by decide) (by decide)

/-- No poll event is a control-register write (polls only read). -/
theorem apReadPoll_not_ctl (env : Env) (reg mask expected n : Nat) (st : St) :
    ∀ te ∈ (apReadPoll env reg mask expected n st).2.1,
      isCtlWriteEv te.ev = false := by
  intro te hte
  obtain ⟨-, res, hev⟩ := apReadPoll_events env reg mask expected n st te hte
  simp [hev, isCtlWriteEv]

/-- The final readiness re-check of `flashMassErase` issues no
control-register write. -/
theorem flashMassEraseCheckAfter_not_ctl (env : Env) (st : St) :
    ∀ te ∈ (flashMassEraseCheckAfter env st).2.1,
      isCtlWriteEv te.ev = false := by
  intro te hte
  simp only [flashMassEraseCheckAfter, apRead, log] at hte
  cases hr : env.apReadFn st.tick REG_MDM_STATUS with
  | none =>
    simp only [hr, List.mem_singleton] at hte
    simp [hte, isCtlWriteEv]
  | some s2 =>
    simp only [hr] at hte
    by_cases hs2 : s2 &&& REG_MDM_STATUS_FLASH_READY = 0
    · simp only [hs2, ite_true, List.mem_append, List.mem_singleton] at hte
      rcases hte with hte | hte <;> simp [hte, isCtlWriteEv]
    · simp only [hs2, ite_false, List.mem_append, List.mem_singleton] at hte
      rcases hte with hte | hte <;> simp [hte, isCtlWriteEv]

/-- The erase-begin poll, completion poll and final re-check of
`flashMassErase` issue no control-register write (the completion poll only
reads the control register). -/
theorem flashMassEraseAwait_not_ctl (env : Env) (st : St) :
    ∀ te ∈ (flashMassEraseAwait env st).2.1,
      isCtlWriteEv te.ev = false := by
  intro te hte
  unfold flashMassEraseAwait at hte
  simp only [log] at hte
  by_cases hp1 : ((apReadPoll env REG_MDM_STATUS REG_MDM_STATUS_FLASH_ERASE_ACK
      EXPECT_ALL DEFAULT_RETRIES st).2.2).isOk
  · simp only [hp1, Bool.not_true, Bool.false_eq_true, if_false] at hte
    by_cases hp2 : ((apReadPoll env REG_MDM_CONTROL REG_MDM_CONTROL_MASS_ERASE 0 erasePollRetries
        (apReadPoll env REG_MDM_STATUS REG_MDM_STATUS_FLASH_ERASE_ACK
          EXPECT_ALL DEFAULT_RETRIES st).1).2.2).isOk
    · simp only [hp2, Bool.not_true, Bool.false_eq_true, if_false,
        List.mem_append] at hte
      rcases hte with (hte | hte) | hte
      · exact apReadPoll_not_ctl env _ _ _ _ _ te hte
      · exact apReadPoll_not_ctl env _ _ _ _ _ te hte
      · exact flashMassEraseCheckAfter_not_ctl env _ te hte
    · simp only [hp2, Bool.not_false, if_true, List.mem_append,
        List.mem_singleton] at hte
      rcases hte with (hte | hte) | hte
      · exact apReadPoll_not_ctl env _ _ _ _ _ te hte
      · exact apReadPoll_not_ctl env _ _ _ _ _ te hte
      · simp [hte, isCtlWriteEv]
  · simp only [hp1, Bool.not_false, if_true, List.mem_append,
      List.mem_singleton] at hte
    rcases hte with hte | hte
    · exact apReadPoll_not_ctl env _ _ _ _ _ te hte
    · simp [hte, isCtlWriteEv]

/-- Filter form of `flashMassEraseAwait_not_ctl`. -/
theorem flashMassEraseAwait_no_ctl_write (env : Env) (st : St) :
    ((flashMassEraseAwait env st).2.1).filter
      (fun te => isCtlWriteEv te.ev) = [] := by
  rw [List.filter_eq_nil_iff]
  intro te hte
  simp [flashMassEraseAwait_not_ctl env st te hte]

/-- C1: the precondition ladder of `flashMassErase`.  For a Status value
`s` read at entry: flash-ready clear, or erase-ack already set, or
mass-erase-enable clear each yield failure with the corresponding
diagnostic and a trace containing no Control write at all (the first
three conclusions state the whole trace); when all three preconditions
pass, the trace's control-register writes are exactly one write carrying
the hold-reset and mass-erase bits together. -/
theorem C1_flashMassErase_preconditions (env : Env) (st : St) (s : Nat)
    (h : env.apReadFn st.tick REG_MDM_STATUS = some s) :
    (s &&& REG_MDM_STATUS_FLASH_READY = 0 →
      flashMassErase env st = ({ st with tick := st.tick + 1 },
        [⟨st.logLevel, .apRead REG_MDM_STATUS (some s)⟩,
         ⟨st.logLevel, .logMsg LOG_ERROR msgNotReadyBefore []⟩], false)) ∧
    (s &&& REG_MDM_STATUS_FLASH_READY ≠ 0 →
     s &&& REG_MDM_STATUS_FLASH_ERASE_ACK ≠ 0 →
      flashMassErase env st = ({ st with tick := st.tick + 1 },
        [⟨st.logLevel, .apRead REG_MDM_STATUS (some s)⟩,
         ⟨st.logLevel, .logMsg LOG_ERROR msgAlreadyInProgress []⟩], false)) ∧
    (s &&& REG_MDM_STATUS_FLASH_READY ≠ 0 →
     s &&& REG_MDM_STATUS_FLASH_ERASE_ACK = 0 →
     s &&& REG_MDM_STATUS_MASS_ERASE_ENABLE = 0 →
      flashMassErase env st = ({ st with tick := st.tick + 1 },
        [⟨st.logLevel, .apRead REG_MDM_STATUS (some s)⟩,
         ⟨st.logLevel, .logMsg LOG_ERROR msgEraseDisabled []⟩], false)) ∧
    (s &&& REG_MDM_STATUS_FLASH_READY ≠ 0 →
     s &&& REG_MDM_STATUS_FLASH_ERASE_ACK = 0 →
     s &&& REG_MDM_STATUS_MASS_ERASE_ENABLE ≠ 0 →
      ((flashMassErase env st).2.1).filter (fun te => isCtlWriteEv te.ev) =
        [⟨st.logLevel, .apWrite REG_MDM_CONTROL
          (REG_MDM_CONTROL_CORE_HOLD_RESET ||| REG_MDM_CONTROL_MASS_ERASE)
          (env.apWriteFn (st.tick + 1) REG_MDM_CONTROL
            (REG_MDM_CONTROL_CORE_HOLD_RESET ||| REG_MDM_CONTROL_MASS_ERASE))⟩]) := by
  refine ⟨?_, ?_, ?_, ?_⟩
  · intro h1
    simp [flashMassErase, apRead, log, h, h1]
  · intro h1 h2
    simp [flashMassErase, apRead, log, h, h1, h2]
  · intro h1 h2 h3
    simp [flashMassErase, apRead, log, h, h1, h2, h3]
  · intro h1 h2 h3
    simp only [flashMassErase, apRead, log, apWrite, h, h1, h2, h3, ite_true, ite_false]
    cases hW : env.apWriteFn (st.tick + 1) REG_MDM_CONTROL
        (REG_MDM_CONTROL_CORE_HOLD_RESET ||| REG_MDM_CONTROL_MASS_ERASE) with
    | false => simp [hW, isCtlWriteEv]
    | true =>
      simp only [hW, Bool.not_true, Bool.false_eq_true, if_false,
        List.filter_append, flashMassEraseAwait_no_ctl_write]
      simp [isCtlWriteEv]
      exact fun a ha => flashMassEraseAwait_not_ctl env _ a ha

/-- An environment whose Status register reads `0` (flash-ready clear). -/
def envMassNotReady : Env :=
  ⟨fun _ _ => some 0, fun _ _ _ => true, fun _ _ _ => true, fun _ _ _ => true⟩

/-- An environment whose Status register reads flash-ready and erase-ack
both set. -/
def envMassAck : Env :=
  ⟨fun _ _ => some 3, fun _ _ _ => true, fun _ _ _ => true, fun _ _ _ => true⟩

/-- An environment whose Status register reads flash-ready set, erase-ack
clear and mass-erase-enable clear. -/
def envMassDisabled : Env :=
  ⟨fun _ _ => some 2, fun _ _ _ => true, fun _ _ _ => true, fun _ _ _ => true⟩

/-- An environment where every Status read shows flash-ready and
mass-erase-enable set but the erase-acknowledge bit never sets, and every
write succeeds. -/
def envMassGo : Env :=
  ⟨fun _ _ => some 34, fun _ _ _ => true, fun _ _ _ => true, fun _ _ _ => true⟩

/-- C1 witness: the four branches of the precondition ladder at concrete
Status values 0 (not ready), 3 (ack set), 2 (disabled) and 34 (proceed). -/
theorem C1_flashMassErase_preconditions_witness :
    flashMassErase envMassNotReady st0 = ({ st0 with tick := st0.tick + 1 },
      [⟨st0.logLevel, .apRead REG_MDM_STATUS (some 0)⟩,
       ⟨st0.logLevel, .logMsg LOG_ERROR msgNotReadyBefore []⟩], false) ∧
    flashMassErase envMassAck st0 = ({ st0 with tick := st0.tick + 1 },
      [⟨st0.logLevel, .apRead REG_MDM_STATUS (some 3)⟩,
       ⟨st0.logLevel, .logMsg LOG_ERROR msgAlreadyInProgress []⟩], false) ∧
    flashMassErase envMassDisabled st0 = ({ st0 with tick := st0.tick + 1 },
      [⟨st0.logLevel, .apRead REG_MDM_STATUS (some 2)⟩,
       ⟨st0.logLevel, .logMsg LOG_ERROR msgEraseDisabled []⟩], false) ∧
    ((flashMassErase envMassGo st0).2.1).filter (fun te => isCtlWriteEv te.ev) =
      [⟨st0.logLevel, .apWrite REG_MDM_CONTROL
        (REG_MDM_CONTROL_CORE_HOLD_RESET ||| REG_MDM_CONTROL_MASS_ERASE)
        (envMassGo.apWriteFn (st0.tick + 1) REG_MDM_CONTROL
          (REG_MDM_CONTROL_CORE_HOLD_RESET ||| REG_MDM_CONTROL_MASS_ERASE))⟩] :=
  ⟨(C1_flashMassErase_preconditions envMassNotReady st0 0 rfl).1 (by decide),
   (C1_flashMassErase_preconditions envMassAck st0 3 rfl).2.1 (by decide) (by decide),
   (C1_flashMassErase_preconditions envMassDisabled st0 2 rfl).2.2.1
     (by decide) (by decide) (by decide),
   (C1_flashMassErase_preconditions envMassGo st0 34 rfl).2.2.2
     (by decide) (by decide) (by decide)⟩

/-- A poll leaves the ambient log level unchanged. -/
theorem apReadPoll_logLevel (env : Env) (reg mask expected : Nat) :
    ∀ n st, ((apReadPoll env reg mask expected n st).1).logLevel = st.logLevel := by
  intro n
  induction n with
  | zero => intro st; rfl
  | succ k ih =>
    intro st
    rw [apReadPoll_succ]
    simp only [apRead]
    cases hr : env.apReadFn st.tick reg with
    | none => simp only [hr]
    | some v =>
      by_cases hv : v &&& mask = expected &&& mask
      · simp only [hr, if_pos hv]
      · simp only [hr, if_neg hv]
        by_cases hk : k = 0
        · simp only [if_pos hk]
        · simp only [if_neg hk]
          exact ih ⟨st.tick + 1, st.logLevel⟩

/-- C4: when the preconditions pass and the combined control write
succeeds but the erase-acknowledge bit never sets on any Status read,
`flashMassErase` fails with the distinct failed-to-begin diagnostic, the
completion poll is never attempted (no Control-register read appears in
the trace), the not-completed and not-ready-after diagnostics are absent,
and the three failure diagnostics are pairwise distinct strings. -/
theorem C4_massErase_notBegun (env : Env) (st : St) (s : Nat)
    (h : env.apReadFn st.tick REG_MDM_STATUS = some s)
    (h1 : s &&& REG_MDM_STATUS_FLASH_READY ≠ 0)
    (h3 : s &&& REG_MDM_STATUS_MASS_ERASE_ENABLE ≠ 0)
    (hW : env.apWriteFn (st.tick + 1) REG_MDM_CONTROL
      (REG_MDM_CONTROL_CORE_HOLD_RESET ||| REG_MDM_CONTROL_MASS_ERASE) = true)
    (hnever : ∀ t v, env.apReadFn t REG_MDM_STATUS = some v →
      v &&& REG_MDM_STATUS_FLASH_ERASE_ACK = 0) :
    (flashMassErase env st).2.2 = false ∧
    ⟨st.logLevel, .logMsg LOG_ERROR msgNotBegun []⟩ ∈ (flashMassErase env st).2.1 ∧
    (∀ te ∈ (flashMassErase env st).2.1, ∀ lv args,
      te.ev ≠ .logMsg lv msgNotCompleted args ∧
      te.ev ≠ .logMsg lv msgNotReadyAfter args) ∧
    (∀ te ∈ (flashMassErase env st).2.1, ∀ r, te.ev ≠ .apRead REG_MDM_CONTROL r) ∧
    msgNotBegun ≠ msgNotCompleted ∧ msgNotBegun ≠ msgNotReadyAfter ∧
    msgNotCompleted ≠ msgNotReadyAfter := by
  have h2 : s &&& REG_MDM_STATUS_FLASH_ERASE_ACK = 0 := hnever st.tick s h
  have H : ∀ t v, env.apReadFn t REG_MDM_STATUS = some v →
      v &&& REG_MDM_STATUS_FLASH_ERASE_ACK ≠
        EXPECT_ALL &&& REG_MDM_STATUS_FLASH_ERASE_ACK := by
    intro t v hv
    rw [hnever t v hv]
    decide
  have hp1 := apReadPoll_not_ok env REG_MDM_STATUS REG_MDM_STATUS_FLASH_ERASE_ACK
    EXPECT_ALL H DEFAULT_RETRIES ⟨st.tick + 2, st.logLevel⟩
  have hlvl := apReadPoll_logLevel env REG_MDM_STATUS REG_MDM_STATUS_FLASH_ERASE_ACK
    EXPECT_ALL DEFAULT_RETRIES ⟨st.tick + 2, st.logLevel⟩
  have hEq : flashMassErase env st =
      ((apReadPoll env REG_MDM_STATUS REG_MDM_STATUS_FLASH_ERASE_ACK
          EXPECT_ALL DEFAULT_RETRIES ⟨st.tick + 2, st.logLevel⟩).1,
        ⟨st.logLevel, .apRead REG_MDM_STATUS (some s)⟩ ::
        ⟨st.logLevel, .logMsg LOG_NORMAL msgBeginning []⟩ ::
        ⟨st.logLevel, .apWrite REG_MDM_CONTROL
          (REG_MDM_CONTROL_CORE_HOLD_RESET ||| REG_MDM_CONTROL_MASS_ERASE) true⟩ ::
        ((apReadPoll env REG_MDM_STATUS REG_MDM_STATUS_FLASH_ERASE_ACK
            EXPECT_ALL DEFAULT_RETRIES ⟨st.tick + 2, st.logLevel⟩).2.1 ++
         [⟨st.logLevel, .logMsg LOG_ERROR msgNotBegun []⟩]),
        false) := by
    simp [flashMassErase, flashMassEraseAwait, apRead, log, apWrite,
      h, h1, h2, h3, hW, hp1, hlvl]
  rw [hEq]
  refine ⟨rfl, ?_, ?_, ?_, by decide, by decide, by decide⟩
  · simp
  · intro te hte lv args
    simp only [List.mem_cons, List.mem_append] at hte
    rcases hte with rfl | rfl | rfl | hte | rfl | h0
    · simp
    · simp [msgBeginning, msgNotCompleted, msgNotReadyAfter]
    · simp
    · obtain ⟨-, res, hev⟩ := apReadPoll_events env REG_MDM_STATUS
        REG_MDM_STATUS_FLASH_ERASE_ACK EXPECT_ALL DEFAULT_RETRIES
        ⟨st.tick + 2, st.logLevel⟩ te hte
      simp [hev]
    · simp [msgNotBegun, msgNotCompleted, msgNotReadyAfter]
    · exact (List.not_mem_nil te h0).elim
  · intro te hte r
    simp only [List.mem_cons, List.mem_append] at hte
    rcases hte with rfl | rfl | rfl | hte | rfl | h0
    · simp [REG_MDM_STATUS, REG_MDM_CONTROL]
    · simp
    · simp
    · obtain ⟨-, res, hev⟩ := apReadPoll_events env REG_MDM_STATUS
        REG_MDM_STATUS_FLASH_ERASE_ACK EXPECT_ALL DEFAULT_RETRIES
        ⟨st.tick + 2, st.logLevel⟩ te hte
      simp [hev, REG_MDM_STATUS, REG_MDM_CONTROL]
    · simp
    · exact (List.not_mem_nil te h0).elim

/-- C4 witness: at `envMassGo` every Status read is 34 (flash-ready and
mass-erase-enable set, erase-ack never set), so the erase never begins. -/
theorem C4_massErase_notBegun_witness :
    (flashMassErase envMassGo st0).2.2 = false ∧
    ⟨st0.logLevel, .logMsg LOG_ERROR msgNotBegun []⟩ ∈ (flashMassErase envMassGo st0).2.1 :=
  ⟨(C4_massErase_notBegun envMassGo st0 34 rfl (by decide) (by decide) rfl
      (by intro t v hv; cases hv; decide)).1,
   (C4_massErase_notBegun envMassGo st0 34 rfl (by decide) (by decide) rfl
      (by intro t v hv; cases hv; decide)).2.1⟩

/-- C7: `resetHalt` performs its five phases strictly in order; when phase
N fails, `resetHalt` returns failure and its trace is exactly the
concatenation of the traces of phases 1..N — no register access of any
later phase happens. -/
theorem C7_resetHalt_phase_order (env : Env) (st : St) :
    ((resetHaltPhase1 env st).2.2 = false →
      resetHalt env st =
        ((resetHaltPhase1 env st).1, (resetHaltPhase1 env st).2.1, false)) ∧
    ((resetHaltPhase1 env st).2.2 = true →
     (resetHaltPhase2 env (resetHaltPhase1 env st).1).2.2 = false →
      resetHalt env st =
        ((resetHaltPhase2 env (resetHaltPhase1 env st).1).1,
         (resetHaltPhase1 env st).2.1 ++
           (resetHaltPhase2 env (resetHaltPhase1 env st).1).2.1, false)) ∧
    ((resetHaltPhase1 env st).2.2 = true →
     (resetHaltPhase2 env (resetHaltPhase1 env st).1).2.2 = true →
     (resetHaltPhase3 env (resetHaltPhase2 env (resetHaltPhase1 env st).1).1).2.2 = false →
      resetHalt env st =
        ((resetHaltPhase3 env (resetHaltPhase2 env (resetHaltPhase1 env st).1).1).1,
         (resetHaltPhase1 env st).2.1 ++
           (resetHaltPhase2 env (resetHaltPhase1 env st).1).2.1 ++
           (resetHaltPhase3 env (resetHaltPhase2 env (resetHaltPhase1 env st).1).1).2.1,
         false)) ∧
    ((resetHaltPhase1 env st).2.2 = true →
     (resetHaltPhase2 env (resetHaltPhase1 env st).1).2.2 = true →
     (resetHaltPhase3 env (resetHaltPhase2 env (resetHaltPhase1 env st).1).1).2.2 = true →
     (resetHaltPhase4 env
       (resetHaltPhase3 env (resetHaltPhase2 env (resetHaltPhase1 env st).1).1).1).2.2 = false →
      resetHalt env st =
        ((resetHaltPhase4 env
           (resetHaltPhase3 env (resetHaltPhase2 env (resetHaltPhase1 env st).1).1).1).1,
         (resetHaltPhase1 env st).2.1 ++
           (resetHaltPhase2 env (resetHaltPhase1 env st).1).2.1 ++
           (resetHaltPhase3 env (resetHaltPhase2 env (resetHaltPhase1 env st).1).1).2.1 ++
           (resetHaltPhase4 env
             (resetHaltPhase3 env (resetHaltPhase2 env (resetHaltPhase1 env st).1).1).1).2.1,
         false)) := by
  rcases hP1 : resetHaltPhase1 env st with ⟨st1, e1, ok1⟩
  rcases hP2 : resetHaltPhase2 env st1 with ⟨st2, e2, ok2⟩
  rcases hP3 : resetHaltPhase3 env st2 with ⟨st3, e3, ok3⟩
  rcases hP4 : resetHaltPhase4 env st3 with ⟨st4, e4, ok4⟩
  cases ok1 <;> cases ok2 <;> cases ok3 <;> cases ok4 <;>
    simp [resetHalt, hP1, hP2, hP3, hP4]

/-- Environment failing phase 1 of `resetHalt`: every AP write fails. -/
def envFail1 : Env :=
  ⟨fun _ _ => some 0, fun _ _ _ => false, fun _ _ _ => true, fun _ _ _ => true⟩

/-- Environment failing phase 2 of `resetHalt`: phase 1 is served, the
phase-2 status poll hits a transport failure. -/
def envFail2 : Env :=
  ⟨fun t _ => if t = 1 then some 8 else none,
   fun _ _ _ => true, fun _ _ _ => true, fun _ _ _ => true⟩

/-- Environment failing phase 3 of `resetHalt`: phases 1 and 2 are served,
the phase-3 safe-state poll hits a transport failure. -/
def envFail3 : Env :=
  ⟨fun t _ => if t = 1 then some 8 else if t = 3 then some 0 else none,
   fun _ _ _ => true, fun _ _ _ => true, fun _ _ _ => true⟩

/-- Environment failing phase 4 of `resetHalt`: phases 1–3 are served, the
CSW setup write (tick 6) fails. -/
def envFail4 : Env :=
  ⟨fun t _ => if t = 1 then some 8 else if t = 3 then some 0 else some 10,
   fun t _ _ => t ≠ 6, fun _ _ _ => true, fun _ _ _ => true⟩

/-- C7 witness: four environments, each failing exactly one phase, and
`resetHalt` failing there. -/
theorem C7_resetHalt_phase_order_witness :
    (resetHalt envFail1 st0).2.2 = false ∧ (resetHalt envFail2 st0).2.2 = false ∧
    (resetHalt envFail3 st0).2.2 = false ∧ (resetHalt envFail4 st0).2.2 = false := by
  refine ⟨?_, ?_, ?_, ?_⟩
  · rw [(C7_resetHalt_phase_order envFail1 st0).1 (by decide)]
  · rw [(C7_resetHalt_phase_order envFail2 st0).2.1 (by decide) (by decide)]
  · rw [(C7_resetHalt_phase_order envFail3 st0).2.2.1 (by decide) (by decide) (by decide)]
  · rw [(C7_resetHalt_phase_order envFail4 st0).2.2.2 (by decide) (by decide) (by decide)
      (by decide)]

/-- The bit content of the phase-3 mask/expected pair: a value passes the
safe-state poll exactly when bit 3 and bit 1 are set and bit 2 is clear. -/
theorem land_mask_safe_iff (v : Nat) :
    v &&& 14 = 10 ↔ (v.testBit 3 = true ∧ v.testBit 1 = true ∧ v.testBit 2 = false) := by
  have t14_1 : Nat.testBit 14 1 = true := by decide
  have t14_2 : Nat.testBit 14 2 = true := by decide
  have t14_3 : Nat.testBit 14 3 = true := by decide
  have t10_1 : Nat.testBit 10 1 = true := by decide
  have t10_2 : Nat.testBit 10 2 = false := by decide
  have t10_3 : Nat.testBit 10 3 = true := by decide
  constructor
  · intro hEq
    refine ⟨?_, ?_, ?_⟩
    · have h := congrArg (fun x => Nat.testBit x 3) hEq
      simpa [Nat.testBit_and, t14_3, t10_3] using h
    · have h := congrArg (fun x => Nat.testBit x 1) hEq
      simpa [Nat.testBit_and, t14_1, t10_1] using h
    · have h := congrArg (fun x => Nat.testBit x 2) hEq
      simpa [Nat.testBit_and, t14_2, t10_2] using h
  · rintro ⟨h3, h1, h2⟩
    apply Nat.eq_of_testBit_eq
    intro i
    rw [Nat.testBit_and]
    match i with
    | 0 => simp
    | 1 => simp [h1, t14_1, t10_1]
    | 2 => simp [h2, t14_2, t10_2]
    | 3 => simp [h3, t14_3, t10_3]
    | (j+4) =>
      have hle : (16 : Nat) ≤ 2 ^ (j + 4) := by
        calc (16 : Nat) = 2 ^ 4 := by norm_num
        _ ≤ 2 ^ (j + 4) := Nat.pow_le_pow_right (by norm_num) (by omega)
      have ha : Nat.testBit 14 (j + 4) = false :=
        Nat.testBit_lt_two_pow (by omega)
      have hb : Nat.testBit 10 (j + 4) = false :=
        Nat.testBit_lt_two_pow (by omega)
      simp [ha, hb]

/-- A single-bit mask at bit `k` reads nonzero exactly when the bit is set. -/
theorem land_two_pow_ne_zero (v k : Nat) :
    v &&& 2 ^ k ≠ 0 ↔ v.testBit k = true := by
  rw [Nat.and_two_pow]
  cases h : v.testBit k <;> simp [h]

/-- Phase 1 of `resetHalt` performs no memory-access-window interaction. -/
theorem resetHaltPhase1_not_memAccess (env : Env) (st : St) :
    ∀ te ∈ (resetHaltPhase1 env st).2.1, isMemAccessEv te.ev = false := by
  intro te hte
  unfold resetHaltPhase1 at hte
  simp only [apWrite] at hte
  cases hw : env.apWriteFn st.tick REG_MDM_CONTROL REG_MDM_CONTROL_CORE_HOLD_RESET with
  | false =>
    simp only [hw, Bool.not_false, if_true, List.mem_singleton] at hte
    simp [hte, isMemAccessEv, MEM_CSW, MEM_TAR, MEM_DRW, REG_MDM_CONTROL]
  | true =>
    simp only [hw, Bool.not_true, Bool.false_eq_true, if_false,
      List.mem_append, List.mem_singleton] at hte
    rcases hte with hte | hte
    · simp [hte, isMemAccessEv, MEM_CSW, MEM_TAR, MEM_DRW, REG_MDM_CONTROL]
    · obtain ⟨-, res, hev⟩ := apReadPoll_events env REG_MDM_STATUS
        REG_MDM_STATUS_SYS_NRESET EXPECT_ALL resetRetries ⟨st.tick + 1, st.logLevel⟩ te hte
      simp [hev, isMemAccessEv, MEM_DRW, REG_MDM_STATUS]

/-- Phase 2 of `resetHalt` performs no memory-access-window interaction. -/
theorem resetHaltPhase2_not_memAccess (env : Env) (st : St) :
    ∀ te ∈ (resetHaltPhase2 env st).2.1, isMemAccessEv te.ev = false := by
  intro te hte
  unfold resetHaltPhase2 at hte
  simp only [apWrite] at hte
  cases hw : env.apWriteFn st.tick REG_MDM_CONTROL REG_MDM_CONTROL_SYS_RESET_REQ with
  | false =>
    simp only [hw, Bool.not_false, if_true, List.mem_singleton] at hte
    simp [hte, isMemAccessEv, MEM_CSW, MEM_TAR, MEM_DRW, REG_MDM_CONTROL]
  | true =>
    simp only [hw, Bool.not_true, Bool.false_eq_true, if_false] at hte
    by_cases hp : ((apReadPoll env REG_MDM_STATUS REG_MDM_STATUS_SYS_NRESET 0
        DEFAULT_RETRIES ⟨st.tick + 1, st.logLevel⟩).2.2).isOk
    · simp only [hp, Bool.not_true, Bool.false_eq_true, if_false,
        List.mem_append, List.mem_singleton] at hte
      rcases hte with (hte | hte) | hte
      · simp [hte, isMemAccessEv, MEM_CSW, MEM_TAR, MEM_DRW, REG_MDM_CONTROL]
      · obtain ⟨-, res, hev⟩ := apReadPoll_events env REG_MDM_STATUS
          REG_MDM_STATUS_SYS_NRESET 0 DEFAULT_RETRIES ⟨st.tick + 1, st.logLevel⟩ te hte
        simp [hev, isMemAccessEv, MEM_DRW, REG_MDM_STATUS]
      · simp [hte, isMemAccessEv, MEM_CSW, MEM_TAR, MEM_DRW, REG_MDM_CONTROL]
    · simp only [hp, Bool.not_false, if_true,
        List.mem_append, List.mem_singleton] at hte
      rcases hte with hte | hte
      · simp [hte, isMemAccessEv, MEM_CSW, MEM_TAR, MEM_DRW, REG_MDM_CONTROL]
      · obtain ⟨-, res, hev⟩ := apReadPoll_events env REG_MDM_STATUS
          REG_MDM_STATUS_SYS_NRESET 0 DEFAULT_RETRIES ⟨st.tick + 1, st.logLevel⟩ te hte
        simp [hev, isMemAccessEv, MEM_DRW, REG_MDM_STATUS]

/-- Phase 3 of `resetHalt` performs no memory-access-window interaction. -/
theorem resetHaltPhase3_not_memAccess (env : Env) (st : St) :
    ∀ te ∈ (resetHaltPhase3 env st).2.1, isMemAccessEv te.ev = false := by
  intro te hte
  unfold resetHaltPhase3 at hte
  obtain ⟨-, res, hev⟩ := apReadPoll_events env REG_MDM_STATUS
    MASK_SAFE EXPECTED_SAFE resetRetries st te hte
  simp [hev, isMemAccessEv, MEM_DRW, REG_MDM_STATUS]

/-- A single-bit mask at bit `k` reads zero exactly when the bit is clear. -/
theorem land_two_pow_eq_zero (v k : Nat) :
    v &&& 2 ^ k = 0 ↔ v.testBit k = false := by
  rw [Nat.and_two_pow]
  cases h : v.testBit k
  · simp [h]
  · simp only [h, Bool.toNat_true, one_mul]
    simp [(Nat.pow_pos (show (0 : Nat) < 2 by norm_num) : 0 < 2 ^ k).ne']

/-- C6: phase 3 of `resetHalt` is a single Status poll whose mask covers
the reset-line, flash-ready and security bits at once and which accepts
exactly the values with reset-line and flash-ready set and security clear,
using the 2000-iteration reset retry budget; when phases 1 and 2 succeed
but this poll never accepts, `resetHalt` fails before any memory-access
setup (CSW/TAR write) or halt attempt (DRW access). -/
theorem C6_resetHalt_safeState (env : Env) (st : St)
    (h1 : (resetHaltPhase1 env st).2.2 = true)
    (h2 : (resetHaltPhase2 env (resetHaltPhase1 env st).1).2.2 = true)
    (h3 : (resetHaltPhase3 env
      (resetHaltPhase2 env (resetHaltPhase1 env st).1).1).2.2 = false) :
    (resetHalt env st).2.2 = false ∧
    (∀ te ∈ (resetHalt env st).2.1, isMemAccessEv te.ev = false) ∧
    (∀ v : Nat, (v &&& MASK_SAFE = EXPECTED_SAFE &&& MASK_SAFE) ↔
      (v &&& REG_MDM_STATUS_SYS_NRESET ≠ 0 ∧
       v &&& REG_MDM_STATUS_FLASH_READY ≠ 0 ∧
       v &&& REG_MDM_STATUS_SYS_SECURITY = 0)) ∧
    resetRetries = 2000 := by
  rcases hP1 : resetHaltPhase1 env st with ⟨st1, e1, ok1⟩
  simp only [hP1] at h1 h2 h3
  rcases hP2 : resetHaltPhase2 env st1 with ⟨st2, e2, ok2⟩
  simp only [hP2] at h2 h3
  rcases hP3 : resetHaltPhase3 env st2 with ⟨st3, e3, ok3⟩
  simp only [hP3] at h3
  have hR : resetHalt env st = (st3, e1 ++ e2 ++ e3, false) := by
    simp [resetHalt, hP1, hP2, hP3, h1, h2, h3]
  rw [hR]
  refine ⟨rfl, ?_, fun v => ?_, rfl⟩
  · intro te hte
    simp only [List.mem_append] at hte
    rcases hte with (hte | hte) | hte
    · exact resetHaltPhase1_not_memAccess env st te (by rw [hP1]; exact hte)
    · exact resetHaltPhase2_not_memAccess env st1 te (by rw [hP2]; exact hte)
    · exact resetHaltPhase3_not_memAccess env st2 te (by rw [hP3]; exact hte)
  · have hm : MASK_SAFE = 14 := by decide
    have he : EXPECTED_SAFE &&& MASK_SAFE = 10 := by decide
    have hn : (v &&& REG_MDM_STATUS_SYS_NRESET ≠ 0) ↔ v.testBit 3 = true := by
      have h8 : REG_MDM_STATUS_SYS_NRESET = 2 ^ 3 := by decide
      rw [h8, land_two_pow_ne_zero]
    have hf : (v &&& REG_MDM_STATUS_FLASH_READY ≠ 0) ↔ v.testBit 1 = true := by
      have h2p : REG_MDM_STATUS_FLASH_READY = 2 ^ 1 := by decide
      rw [h2p, land_two_pow_ne_zero]
    have hs : (v &&& REG_MDM_STATUS_SYS_SECURITY = 0) ↔ v.testBit 2 = false := by
      have h4 : REG_MDM_STATUS_SYS_SECURITY = 2 ^ 2 := by decide
      rw [h4, land_two_pow_eq_zero]
    rw [he, hm, land_mask_safe_iff, hn, hf, hs]

/-- C6 witness: at `envFail3` phases 1 and 2 are served and the phase-3
poll hits a transport failure, so `resetHalt` fails; the bit reading of
the mask at the sample value 10 (reset-line set, flash-ready set,
security clear). -/
theorem C6_resetHalt_safeState_witness :
    (resetHalt envFail3 st0).2.2 = false ∧
    ((10 &&& MASK_SAFE = EXPECTED_SAFE &&& MASK_SAFE) ↔
      (10 &&& REG_MDM_STATUS_SYS_NRESET ≠ 0 ∧
       10 &&& REG_MDM_STATUS_FLASH_READY ≠ 0 ∧
       10 &&& REG_MDM_STATUS_SYS_SECURITY = 0)) :=
  ⟨(C6_resetHalt_safeState envFail3 st0 (by decide) (by decide) (by decide)).1,
   (C6_resetHalt_safeState envFail3 st0 (by decide) (by decide) (by decide)).2.2.1 10⟩

/-- The halt-race loop leaves the ambient log level unchanged. -/
theorem haltLoop_logLevel (env : Env) :
    ∀ fuel (st : St) dh, ((haltLoop env fuel st dh).1).logLevel = st.logLevel := by
  intro fuel
  induction fuel with
  | zero => intro st dh; rfl
  | succ k ih =>
    intro st dh
    simp only [haltLoop, apWrite, apRead]
    cases hw : env.apWriteFn st.tick MEM_DRW haltRequestPattern with
    | false =>
      simp only [hw, Bool.not_false, if_true]
      exact ih ⟨st.tick + 1, st.logLevel⟩ dh
    | true =>
      simp only [hw, Bool.not_true, Bool.false_eq_true, if_false]
      cases hr : env.apReadFn (st.tick + 1) MEM_DRW with
      | none =>
        simp only [hr]
        exact ih ⟨st.tick + 1 + 1, st.logLevel⟩ dh
      | some v =>
        by_cases hv : v &&& (1 <<< 17) ≠ 0
        · simp only [hr, if_pos hv]
        · simp only [hr, if_neg hv]
          exact ih ⟨st.tick + 1 + 1, st.logLevel⟩ (some v)

/-- Every event of the halt-race loop happens at the entry log level and is
a DRW write of the halt pattern or a DRW read. -/
theorem haltLoop_events (env : Env) :
    ∀ fuel (st : St) dh, ∀ te ∈ (haltLoop env fuel st dh).2.1,
      te.lvl = st.logLevel ∧
      ((∃ b, te.ev = Ev.apWrite MEM_DRW haltRequestPattern b) ∨
       (∃ r, te.ev = Ev.apRead MEM_DRW r)) := by
  intro fuel
  induction fuel with
  | zero => intro st dh te hte; simp [haltLoop] at hte
  | succ k ih =>
    intro st dh te hte
    simp only [haltLoop, apWrite, apRead] at hte
    cases hw : env.apWriteFn st.tick MEM_DRW haltRequestPattern with
    | false =>
      simp only [hw, Bool.not_false, if_true, List.mem_append, List.mem_singleton] at hte
      rcases hte with hte | hte
      · subst hte; exact ⟨rfl, Or.inl ⟨false, rfl⟩⟩
      · exact ih ⟨st.tick + 1, st.logLevel⟩ dh te hte
    | true =>
      simp only [hw, Bool.not_true, Bool.false_eq_true, if_false] at hte
      cases hr : env.apReadFn (st.tick + 1) MEM_DRW with
      | none =>
        simp only [hr, List.mem_append, List.mem_singleton] at hte
        rcases hte with (hte | hte) | hte
        · subst hte; exact ⟨rfl, Or.inl ⟨true, rfl⟩⟩
        · subst hte; exact ⟨rfl, Or.inr ⟨none, rfl⟩⟩
        · exact ih ⟨st.tick + 1 + 1, st.logLevel⟩ dh te hte
      | some v =>
        by_cases hv : v &&& (1 <<< 17) ≠ 0
        · simp only [hr, if_pos hv, List.mem_append, List.mem_singleton] at hte
          rcases hte with hte | hte
          · subst hte; exact ⟨rfl, Or.inl ⟨true, rfl⟩⟩
          · subst hte; exact ⟨rfl, Or.inr ⟨some v, rfl⟩⟩
        · simp only [hr, if_neg hv, List.mem_append, List.mem_singleton] at hte
          rcases hte with (hte | hte) | hte
          · subst hte; exact ⟨rfl, Or.inl ⟨true, rfl⟩⟩
          · subst hte; exact ⟨rfl, Or.inr ⟨some v, rfl⟩⟩
          · exact ih ⟨st.tick + 1 + 1, st.logLevel⟩ (some v) te hte

/-- C3: on every exit of the halt-race phase the addressing-window reset
(`initMemPort`) is invoked exactly once, after all loop events; every loop
event happens at the suppressed level `LOG_NONE`; and the ambient log
level after the phase equals the level before it, in the success and the
failure branch alike. -/
theorem C3_haltPhase_cleanup (env : Env) (st : St) :
    ∃ loopEvs fin,
      (resetHaltPhase5 env st).2.1 =
        ⟨st.logLevel, .setLog LOG_NONE⟩ ::
          (loopEvs ++ ⟨LOG_NONE, .initMemPort⟩ ::
            ⟨LOG_NONE, .setLog st.logLevel⟩ :: [fin]) ∧
      (∀ te ∈ loopEvs, te.lvl = LOG_NONE ∧ te.ev ≠ Ev.initMemPort) ∧
      fin.lvl = st.logLevel ∧ fin.ev ≠ Ev.initMemPort ∧
      ((resetHaltPhase5 env st).1).logLevel = st.logLevel ∧
      ((resetHaltPhase5 env st).2.1).countP (fun te => te.ev == Ev.initMemPort) = 1 := by
  have hLvl := haltLoop_logLevel env haltRetriesInit ⟨st.tick, LOG_NONE⟩ none
  rcases hL : haltLoop env haltRetriesInit ⟨st.tick, LOG_NONE⟩ none with
    ⟨stL, loopEvs, rem, dh⟩
  rw [hL] at hLvl
  have hLoopEv : ∀ te ∈ loopEvs, te.lvl = LOG_NONE ∧ te.ev ≠ Ev.initMemPort := by
    intro te hte
    have hh := haltLoop_events env haltRetriesInit ⟨st.tick, LOG_NONE⟩ none te
      (by rw [hL]; exact hte)
    refine ⟨hh.1, ?_⟩
    rcases hh.2 with ⟨b, hev⟩ | ⟨r, hev⟩ <;> simp [hev]
  have hCount : loopEvs.countP (fun te => te.ev == Ev.initMemPort) = 0 := by
    rw [List.countP_eq_zero]
    intro te hte
    simp [(hLoopEv te hte).2]
  have hTr : resetHaltPhase5 env st =
      (if rem ≠ 0 then
        (⟨stL.tick, st.logLevel⟩,
          ⟨st.logLevel, .setLog LOG_NONE⟩ ::
            (loopEvs ++ ⟨LOG_NONE, .initMemPort⟩ ::
              ⟨LOG_NONE, .setLog st.logLevel⟩ ::
                [⟨st.logLevel, .logMsg LOG_NORMAL msgHaltOk []⟩]), true)
      else
        (⟨stL.tick, st.logLevel⟩,
          ⟨st.logLevel, .setLog LOG_NONE⟩ ::
            (loopEvs ++ ⟨LOG_NONE, .initMemPort⟩ ::
              ⟨LOG_NONE, .setLog st.logLevel⟩ ::
                [⟨st.logLevel, .logMsg LOG_ERROR msgHaltFail [dh]⟩]), false)) := by
    have hLvlN : stL.logLevel = LOG_NONE := hLvl
    unfold resetHaltPhase5
    simp only [setLogLevel, initMemPort, log, hL]
    by_cases hrem : rem ≠ 0
    · simp only [if_pos hrem]
      simp [hLvlN]
    · simp only [if_neg hrem]
      simp [hLvlN]
  by_cases hrem : rem ≠ 0
  · rw [hTr, if_pos hrem]
    refine ⟨loopEvs, ⟨st.logLevel, .logMsg LOG_NORMAL msgHaltOk []⟩,
      rfl, hLoopEv, rfl, by simp, rfl, ?_⟩
    simp [List.countP_cons, List.countP_append, hCount]
  · rw [hTr, if_neg hrem]
    refine ⟨loopEvs, ⟨st.logLevel, .logMsg LOG_ERROR msgHaltFail [dh]⟩,
      rfl, hLoopEv, rfl, by simp, rfl, ?_⟩
    simp [List.countP_cons, List.countP_append, hCount]

/-- When the halt-race loop exits with retries remaining, the final
`dhcsr` value comes from a successful DRW readback with the halted bit
(bit 17) set, and that readback is in the loop's trace. -/
theorem haltLoop_success_read (env : Env) :
    ∀ fuel (st : St) dh0, (haltLoop env fuel st dh0).2.2.1 ≠ 0 →
      ∃ v, (haltLoop env fuel st dh0).2.2.2 = some v ∧ v &&& (1 <<< 17) ≠ 0 ∧
        ⟨st.logLevel, Ev.apRead MEM_DRW (some v)⟩ ∈ (haltLoop env fuel st dh0).2.1 := by
  intro fuel
  induction fuel with
  | zero => intro st dh0 h; simp [haltLoop] at h
  | succ k ih =>
    intro st dh0 h
    simp only [haltLoop, apWrite, apRead] at h ⊢
    cases hw : env.apWriteFn st.tick MEM_DRW haltRequestPattern with
    | false =>
      simp only [hw, Bool.not_false, if_true] at h ⊢
      obtain ⟨v, h1, h2, h3⟩ := ih ⟨st.tick + 1, st.logLevel⟩ dh0 h
      exact ⟨v, h1, h2, List.mem_append.mpr (Or.inr h3)⟩
    | true =>
      simp only [hw, Bool.not_true, Bool.false_eq_true, if_false] at h ⊢
      cases hr : env.apReadFn (st.tick + 1) MEM_DRW with
      | none =>
        simp only [hr] at h ⊢
        obtain ⟨v, h1, h2, h3⟩ := ih ⟨st.tick + 1 + 1, st.logLevel⟩ dh0 h
        have h3h : (⟨st.logLevel, Ev.apRead MEM_DRW (some v)⟩ : TEv) ∈
            (haltLoop env k ⟨st.tick + 1 + 1, st.logLevel⟩ dh0).2.1 := h3
        exact ⟨v, h1, h2, List.mem_append.mpr (Or.inr h3h)⟩
      | some v =>
        by_cases hv : v &&& (1 <<< 17) ≠ 0
        · simp only [hr, if_pos hv] at h ⊢
          exact ⟨v, rfl, hv, List.mem_append.mpr (Or.inr (by simp))⟩
        · simp only [hr, if_neg hv] at h ⊢
          obtain ⟨u, h1, h2, h3⟩ := ih ⟨st.tick + 1 + 1, st.logLevel⟩ (some v) h
          have h3h : (⟨st.logLevel, Ev.apRead MEM_DRW (some u)⟩ : TEv) ∈
              (haltLoop env k ⟨st.tick + 1 + 1, st.logLevel⟩ (some v)).2.1 := h3
          exact ⟨u, h1, h2, List.mem_append.mpr (Or.inr h3h)⟩

/-- A family of environments serving `resetHalt` end to end: phases 1–4
are served at ticks 0–7, every write succeeds, and the DRW readback
reports the halted bit exactly on the `n`-th halt attempt. -/
def envHalt (n : Nat) : Env :=
  ⟨fun t reg =>
      if reg = MEM_DRW then (if t = 7 + 2 * n then some 0x20000 else some 0)
      else if t = 1 then some 8 else if t = 3 then some 0 else some 10,
    fun _ _ _ => true, fun _ _ _ => true, fun _ _ _ => true⟩

/-- C2 counterexample: at `envHalt 200` the halted bit is observed by a
successful readback within the 200-attempt budget (on the 200th attempt),
yet `resetHalt` returns failure — refuting "success if and only if the
halted-status bit is observed within the budget of 200 attempts". -/
theorem C2_resetHalt_budget_counterexample :
    (⟨LOG_NONE, Ev.apRead MEM_DRW (some 0x20000)⟩ : TEv) ∈
      (resetHalt (envHalt 200) st0).2.1 ∧
    (0x20000 : Nat) &&& (1 <<< 17) ≠ 0 ∧
    (resetHalt (envHalt 200) st0).2.2 = false :=
  ⟨by decide, by decide, by decide⟩

/-- C2 (amended): the halt-race phase succeeds iff the loop exits with
retries remaining — the halted bit observed on an attempt before the
200th; a success always stems from a successful DRW readback with bit 17
set; when the retries are exhausted the phase fails and logs the
halt-failure diagnostic carrying the final `dhcsr` value; concretely, the
bit first observed on the 5th or 199th attempt yields success and on the
200th attempt yields failure. -/
theorem C2_resetHalt_haltRace_amended (env : Env) (st : St) :
    ((resetHaltPhase5 env st).2.2 = true ↔
      (haltLoop env haltRetriesInit { st with logLevel := LOG_NONE } none).2.2.1 ≠ 0) ∧
    ((haltLoop env haltRetriesInit { st with logLevel := LOG_NONE } none).2.2.1 ≠ 0 →
      ∃ v, (haltLoop env haltRetriesInit
          { st with logLevel := LOG_NONE } none).2.2.2 = some v ∧
        v &&& (1 <<< 17) ≠ 0 ∧
        ⟨LOG_NONE, Ev.apRead MEM_DRW (some v)⟩ ∈
          (haltLoop env haltRetriesInit { st with logLevel := LOG_NONE } none).2.1) ∧
    ((haltLoop env haltRetriesInit { st with logLevel := LOG_NONE } none).2.2.1 = 0 →
      (resetHaltPhase5 env st).2.2 = false ∧
      ⟨st.logLevel, Ev.logMsg LOG_ERROR msgHaltFail
          [(haltLoop env haltRetriesInit { st with logLevel := LOG_NONE } none).2.2.2]⟩ ∈
        (resetHaltPhase5 env st).2.1) ∧
    (resetHalt (envHalt 5) st0).2.2 = true ∧
    (resetHalt (envHalt 199) st0).2.2 = true ∧
    (resetHalt (envHalt 200) st0).2.2 = false := by
  have hLvl := haltLoop_logLevel env haltRetriesInit ⟨st.tick, LOG_NONE⟩ none
  have hRead := haltLoop_success_read env haltRetriesInit ⟨st.tick, LOG_NONE⟩ none
  rcases hL : haltLoop env haltRetriesInit ⟨st.tick, LOG_NONE⟩ none with
    ⟨stL, loopEvs, rem, dh⟩
  rw [hL] at hLvl hRead
  have hLvlN : stL.logLevel = LOG_NONE := hLvl
  have hPh : resetHaltPhase5 env st =
      (if rem ≠ 0 then
        (⟨stL.tick, st.logLevel⟩,
          ⟨st.logLevel, .setLog LOG_NONE⟩ ::
            (loopEvs ++ ⟨LOG_NONE, .initMemPort⟩ ::
              ⟨LOG_NONE, .setLog st.logLevel⟩ ::
                [⟨st.logLevel, .logMsg LOG_NORMAL msgHaltOk []⟩]), true)
      else
        (⟨stL.tick, st.logLevel⟩,
          ⟨st.logLevel, .setLog LOG_NONE⟩ ::
            (loopEvs ++ ⟨LOG_NONE, .initMemPort⟩ ::
              ⟨LOG_NONE, .setLog st.logLevel⟩ ::
                [⟨st.logLevel, .logMsg LOG_ERROR msgHaltFail [dh]⟩]), false)) := by
    unfold resetHaltPhase5
    simp only [setLogLevel, initMemPort, log, hL]
    by_cases hrem : rem ≠ 0
    · simp only [if_pos hrem]
      simp [hLvlN]
    · simp only [if_neg hrem]
      simp [hLvlN]
  refine ⟨?_, hRead, ?_, by decide, by decide, by decide⟩
  · rw [hPh]
    by_cases hrem : rem ≠ 0
    · simp [hrem]
    · simp [hrem]
  · intro hrem
    rw [hPh, if_neg (by simpa using hrem)]
    exact ⟨rfl, by simp⟩

/-- C2 witness: the success side at `envHalt 5` (halted bit on the 5th
attempt) and the exhaustion side at `envHalt 300` (bit never observed
within the budget). -/
theorem C2_resetHalt_haltRace_amended_witness :
    (resetHaltPhase5 (envHalt 5) ⟨8, LOG_NORMAL⟩).2.2 = true ∧
    (∃ v, (haltLoop (envHalt 5) haltRetriesInit ⟨8, LOG_NONE⟩ none).2.2.2 = some v ∧
      v &&& (1 <<< 17) ≠ 0 ∧
      ⟨LOG_NONE, Ev.apRead MEM_DRW (some v)⟩ ∈
        (haltLoop (envHalt 5) haltRetriesInit ⟨8, LOG_NONE⟩ none).2.1) ∧
    (resetHaltPhase5 (envHalt 300) ⟨8, LOG_NORMAL⟩).2.2 = false :=
  ⟨((C2_resetHalt_haltRace_amended (envHalt 5) ⟨8, LOG_NORMAL⟩).1).mpr (by decide),
   (C2_resetHalt_haltRace_amended (envHalt 5) ⟨8, LOG_NORMAL⟩).2.1 (by decide),
   ((C2_resetHalt_haltRace_amended (envHalt 300) ⟨8, LOG_NORMAL⟩).2.2.1 (by decide)).1⟩

/-- Environment for the C9 counterexample: phases 1–4 of `resetHalt` are
served, the first halt-attempt write (tick 8) hits a transport failure,
the second attempt succeeds and reads the halted bit. -/
def envC9 : Env :=
  ⟨fun t reg =>
      if reg = MEM_DRW then (if t = 10 then some 0x20000 else some 0)
      else if t = 1 then some 8 else if t = 3 then some 0 else some 10,
    fun t _ _ => t ≠ 8, fun _ _ _ => true, fun _ _ _ => true⟩

/-- C9 counterexample: at `envC9` a transport-level AP write failure
occurs during `resetHalt` (it is in the trace), yet the operation in
progress succeeds — refuting "a transport-level failure of any single AP
access propagates as immediate failure of the operation in progress". -/
theorem C9_transport_counterexample :
    (⟨LOG_NONE, Ev.apWrite MEM_DRW haltRequestPattern false⟩ : TEv) ∈
      (resetHalt envC9 st0).2.1 ∧
    (resetHalt envC9 st0).2.2 = true :=
  ⟨by decide, by decide⟩

/-- C9 (amended): outside the halt-race loop, a transport failure of any
single AP access fails the operation in progress immediately, with no
retry of that access — proved for every non-loop access site of the
source: the `detect` identity read (line 39), the `flashMassErase` entry
read (line 150), every poll read (lines 58, 64, 72, 170, 177), the
hold-reset write (line 56), the system-reset-request write (line 62), the
reset-release write (line 66), the CSW write (line 79), the TAR write
(line 83), the combined mass-erase control write (line 166) and the final
status re-read (line 183); inside the halt-race loop a failed write or
read only abandons the current attempt (the rest of the iteration is
skipped and the access is not retried within it) and the race proceeds
with the next attempt. -/
theorem C9_transport_amended :
    (∀ (env : Env) (st : St), env.apReadFn st.tick REG_MDM_IDR = none →
      detect env st = ({ st with tick := st.tick + 1 },
        [⟨st.logLevel, .apRead REG_MDM_IDR none⟩], false)) ∧
    (∀ (env : Env) (st : St), env.apReadFn st.tick REG_MDM_STATUS = none →
      flashMassErase env st = ({ st with tick := st.tick + 1 },
        [⟨st.logLevel, .apRead REG_MDM_STATUS none⟩], false)) ∧
    (∀ (env : Env) (st : St) (reg mask expected n : Nat),
      env.apReadFn st.tick reg = none →
      apReadPoll env reg mask expected (n + 1) st =
        ({ st with tick := st.tick + 1 },
          [⟨st.logLevel, .apRead reg none⟩], PollRes.fail)) ∧
    (∀ (env : Env) (st : St),
      env.apWriteFn st.tick REG_MDM_CONTROL REG_MDM_CONTROL_CORE_HOLD_RESET = false →
      resetHalt env st = ({ st with tick := st.tick + 1 },
        [⟨st.logLevel,
          .apWrite REG_MDM_CONTROL REG_MDM_CONTROL_CORE_HOLD_RESET false⟩],
        false)) ∧
    (∀ (env : Env) (st st1 : St) (e1 : List TEv),
      resetHaltPhase1 env st = (st1, e1, true) →
      env.apWriteFn st1.tick REG_MDM_CONTROL REG_MDM_CONTROL_SYS_RESET_REQ = false →
      resetHalt env st = ({ st1 with tick := st1.tick + 1 },
        e1 ++ [⟨st1.logLevel,
          .apWrite REG_MDM_CONTROL REG_MDM_CONTROL_SYS_RESET_REQ false⟩],
        false)) ∧
    (∀ (env : Env) (st st1 stp : St) (e1 ep : List TEv) (lastv : Nat),
      resetHaltPhase1 env st = (st1, e1, true) →
      env.apWriteFn st1.tick REG_MDM_CONTROL REG_MDM_CONTROL_SYS_RESET_REQ = true →
      apReadPoll env REG_MDM_STATUS REG_MDM_STATUS_SYS_NRESET 0 DEFAULT_RETRIES
        ⟨st1.tick + 1, st1.logLevel⟩ = (stp, ep, PollRes.ok lastv) →
      env.apWriteFn stp.tick REG_MDM_CONTROL 0 = false →
      resetHalt env st = ({ stp with tick := stp.tick + 1 },
        e1 ++ (⟨st1.logLevel,
            .apWrite REG_MDM_CONTROL REG_MDM_CONTROL_SYS_RESET_REQ true⟩ ::
          ep ++ [⟨stp.logLevel, .apWrite REG_MDM_CONTROL 0 false⟩]),
        false)) ∧
    (∀ (env : Env) (st st1 st2 st3 : St) (e1 e2 e3 : List TEv),
      resetHaltPhase1 env st = (st1, e1, true) →
      resetHaltPhase2 env st1 = (st2, e2, true) →
      resetHaltPhase3 env st2 = (st3, e3, true) →
      env.apWriteFn st3.tick MEM_CSW cswSetup = false →
      resetHalt env st = ({ st3 with tick := st3.tick + 1 },
        e1 ++ e2 ++ e3 ++ [⟨st3.logLevel, .apWrite MEM_CSW cswSetup false⟩],
        false)) ∧
    (∀ (env : Env) (st st1 st2 st3 : St) (e1 e2 e3 : List TEv),
      resetHaltPhase1 env st = (st1, e1, true) →
      resetHaltPhase2 env st1 = (st2, e2, true) →
      resetHaltPhase3 env st2 = (st3, e3, true) →
      env.apWriteFn st3.tick MEM_CSW cswSetup = true →
      env.apWriteFn (st3.tick + 1) MEM_TAR REG_SCB_DHCSR = false →
      resetHalt env st = ({ st3 with tick := st3.tick + 1 + 1 },
        e1 ++ e2 ++ e3 ++ [⟨st3.logLevel, .apWrite MEM_CSW cswSetup true⟩,
          ⟨st3.logLevel, .apWrite MEM_TAR REG_SCB_DHCSR false⟩],
        false)) ∧
    (∀ (env : Env) (st : St) (s : Nat),
      env.apReadFn st.tick REG_MDM_STATUS = some s →
      s &&& REG_MDM_STATUS_FLASH_READY ≠ 0 →
      s &&& REG_MDM_STATUS_FLASH_ERASE_ACK = 0 →
      s &&& REG_MDM_STATUS_MASS_ERASE_ENABLE ≠ 0 →
      env.apWriteFn (st.tick + 1) REG_MDM_CONTROL
        (REG_MDM_CONTROL_CORE_HOLD_RESET ||| REG_MDM_CONTROL_MASS_ERASE) = false →
      flashMassErase env st = ({ st with tick := st.tick + 2 },
        [⟨st.logLevel, .apRead REG_MDM_STATUS (some s)⟩,
         ⟨st.logLevel, .logMsg LOG_NORMAL msgBeginning []⟩,
         ⟨st.logLevel, .apWrite REG_MDM_CONTROL
           (REG_MDM_CONTROL_CORE_HOLD_RESET ||| REG_MDM_CONTROL_MASS_ERASE) false⟩],
        false)) ∧
    (∀ (env : Env) (st : St) (s : Nat) (stp1 stp2 : St) (ep1 ep2 : List TEv)
        (v1 v2 : Nat),
      env.apReadFn st.tick REG_MDM_STATUS = some s →
      s &&& REG_MDM_STATUS_FLASH_READY ≠ 0 →
      s &&& REG_MDM_STATUS_FLASH_ERASE_ACK = 0 →
      s &&& REG_MDM_STATUS_MASS_ERASE_ENABLE ≠ 0 →
      env.apWriteFn (st.tick + 1) REG_MDM_CONTROL
        (REG_MDM_CONTROL_CORE_HOLD_RESET ||| REG_MDM_CONTROL_MASS_ERASE) = true →
      apReadPoll env REG_MDM_STATUS REG_MDM_STATUS_FLASH_ERASE_ACK EXPECT_ALL
        DEFAULT_RETRIES ⟨st.tick + 2, st.logLevel⟩ = (stp1, ep1, PollRes.ok v1) →
      apReadPoll env REG_MDM_CONTROL REG_MDM_CONTROL_MASS_ERASE 0 erasePollRetries
        stp1 = (stp2, ep2, PollRes.ok v2) →
      env.apReadFn stp2.tick REG_MDM_STATUS = none →
      flashMassErase env st = ({ stp2 with tick := stp2.tick + 1 },
        ⟨st.logLevel, .apRead REG_MDM_STATUS (some s)⟩ ::
          ⟨st.logLevel, .logMsg LOG_NORMAL msgBeginning []⟩ ::
            ⟨st.logLevel, .apWrite REG_MDM_CONTROL
              (REG_MDM_CONTROL_CORE_HOLD_RESET ||| REG_MDM_CONTROL_MASS_ERASE) true⟩ ::
              (ep1 ++ ep2 ++ [⟨stp2.logLevel, .apRead REG_MDM_STATUS none⟩]),
        false)) ∧
    (∀ (env : Env) (st : St) (fuel : Nat) (dh : Option Nat),
      env.apWriteFn st.tick MEM_DRW haltRequestPattern = false →
      haltLoop env (fuel + 1) st dh =
        ((haltLoop env fuel { st with tick := st.tick + 1 } dh).1,
         ⟨st.logLevel, .apWrite MEM_DRW haltRequestPattern false⟩ ::
           (haltLoop env fuel { st with tick := st.tick + 1 } dh).2.1,
         (haltLoop env fuel { st with tick := st.tick + 1 } dh).2.2)) ∧
    (∀ (env : Env) (st : St) (fuel : Nat) (dh : Option Nat),
      env.apWriteFn st.tick MEM_DRW haltRequestPattern = true →
      env.apReadFn (st.tick + 1) MEM_DRW = none →
      haltLoop env (fuel + 1) st dh =
        ((haltLoop env fuel { st with tick := st.tick + 2 } dh).1,
         ⟨st.logLevel, .apWrite MEM_DRW haltRequestPattern true⟩ ::
           ⟨st.logLevel, .apRead MEM_DRW none⟩ ::
             (haltLoop env fuel { st with tick := st.tick + 2 } dh).2.1,
         (haltLoop env fuel { st with tick := st.tick + 2 } dh).2.2)) := by
  refine ⟨?_, ?_, ?_, ?_, ?_, ?_, ?_, ?_, ?_, ?_, ?_, ?_⟩
  · intro env st h
    simp [detect, apRead, h]
  · intro env st h
    simp [flashMassErase, apRead, h]
  · intro env st reg mask expected n h
    rw [apReadPoll_succ]
    simp [apRead, h]
  · intro env st h
    simp [resetHalt, resetHaltPhase1, apWrite, h]
  · intro env st st1 e1 hP1 hw
    simp [resetHalt, resetHaltPhase2, apWrite, hP1, hw]
  · intro env st st1 stp e1 ep lastv hP1 hw hPoll hw0
    simp [resetHalt, resetHaltPhase2, apWrite, hP1, hw, hPoll, hw0, PollRes.isOk]
  · intro env st st1 st2 st3 e1 e2 e3 hP1 hP2 hP3 hw
    simp [resetHalt, resetHaltPhase4, apWrite, hP1, hP2, hP3, hw]
  · intro env st st1 st2 st3 e1 e2 e3 hP1 hP2 hP3 hCSW hTAR
    simp [resetHalt, resetHaltPhase4, apWrite, hP1, hP2, hP3, hCSW, hTAR]
  · intro env st s h h1 h2 h3 hw
    simp [flashMassErase, apRead, log, apWrite, h, h1, h2, h3, hw]
  · intro env st s stp1 stp2 ep1 ep2 v1 v2 h h1 h2 h3 hW hp1 hp2 hread
    simp [flashMassErase, flashMassEraseAwait, flashMassEraseCheckAfter,
      apRead, log, apWrite, h, h1, h2, h3, hW, hp1, hp2, hread, PollRes.isOk]
  · intro env st fuel dh h
    simp only [haltLoop, apWrite, h, Bool.not_false, if_true]
    rcases hrec : haltLoop env fuel ⟨st.tick + 1, st.logLevel⟩ dh with ⟨stR, evsR, remR, dhR⟩
    simp [hrec]
  · intro env st fuel dh hw hr
    simp only [haltLoop, apWrite, apRead, hw, hr, Bool.not_true, Bool.false_eq_true, if_false]
    rcases hrec : haltLoop env fuel ⟨st.tick + 1 + 1, st.logLevel⟩ dh with ⟨stR, evsR, remR, dhR⟩
    have hrec2 : haltLoop env fuel { st with tick := st.tick + 2 } dh =
        (stR, evsR, remR, dhR) := hrec
    simp [hrec, hrec2]

/-- An environment where every AP read fails at the transport level and
every write succeeds. -/
def envReadsFail : Env :=
  ⟨fun _ _ => none, fun _ _ _ => true, fun _ _ _ => true, fun _ _ _ => true⟩

/-- Environment whose system-reset-request write (tick 2, source line 62)
fails; phase 1 of `resetHalt` is served. -/
def envW62 : Env :=
  ⟨fun t _ => if t = 1 then some 8 else some 0,
   fun t _ _ => t ≠ 2, fun _ _ _ => true, fun _ _ _ => true⟩

/-- Environment whose reset-release write (tick 4, source line 66) fails;
phase 1 and the phase-2 deassert poll are served. -/
def envW66 : Env :=
  ⟨fun t _ => if t = 1 then some 8 else some 0,
   fun t _ _ => t ≠ 4, fun _ _ _ => true, fun _ _ _ => true⟩

/-- Environment whose TAR write (tick 7, source line 83) fails; phases 1–3
and the CSW write of `resetHalt` are served. -/
def envW83 : Env :=
  ⟨fun t _ => if t = 1 then some 8 else if t = 3 then some 0 else some 10,
   fun t _ _ => t ≠ 7, fun _ _ _ => true, fun _ _ _ => true⟩

/-- Environment whose combined mass-erase control write (tick 1, source
line 166) fails; the `flashMassErase` preconditions pass. -/
def envW166 : Env :=
  ⟨fun _ _ => some 34, fun t _ _ => t ≠ 1, fun _ _ _ => true, fun _ _ _ => true⟩

/-- Environment whose final status re-read (tick 4, source line 183) fails
at the transport level; the preconditions, the control write and both
polls of `flashMassErase` are served. -/
def envF183 : Env :=
  ⟨fun t _ => if t = 0 then some 34 else if t = 2 then some 35
      else if t = 3 then some 0 else none,
   fun _ _ _ => true, fun _ _ _ => true, fun _ _ _ => true⟩

/-- C9 witness: the amended behaviours at concrete inputs — a failed
`detect` read, a failed `flashMassErase` entry read, a failed poll read,
each failed non-loop write site (hold-reset, reset-request, reset-release,
CSW, TAR, mass-erase control), the failed final status re-read, and both
in-loop cases. -/
theorem C9_transport_amended_witness :
    detect envReadsFail st0 = ({ st0 with tick := st0.tick + 1 },
      [⟨st0.logLevel, .apRead REG_MDM_IDR none⟩], false) ∧
    flashMassErase envReadsFail st0 = ({ st0 with tick := st0.tick + 1 },
      [⟨st0.logLevel, .apRead REG_MDM_STATUS none⟩], false) ∧
    apReadPoll envReadsFail REG_MDM_STATUS 1 1 1 st0 =
      ({ st0 with tick := st0.tick + 1 },
        [⟨st0.logLevel, .apRead REG_MDM_STATUS none⟩], PollRes.fail) ∧
    (resetHalt envFail1 st0).2.2 = false ∧
    (resetHalt envW62 st0).2.2 = false ∧
    (resetHalt envW66 st0).2.2 = false ∧
    (resetHalt envFail4 st0).2.2 = false ∧
    (resetHalt envW83 st0).2.2 = false ∧
    (flashMassErase envW166 st0).2.2 = false ∧
    (flashMassErase envF183 st0).2.2 = false ∧
    haltLoop envC9 1 ⟨8, LOG_NONE⟩ none =
      ((haltLoop envC9 0 ⟨9, LOG_NONE⟩ none).1,
       ⟨LOG_NONE, .apWrite MEM_DRW haltRequestPattern false⟩ ::
         (haltLoop envC9 0 ⟨9, LOG_NONE⟩ none).2.1,
       (haltLoop envC9 0 ⟨9, LOG_NONE⟩ none).2.2) ∧
    haltLoop envReadsFail 1 ⟨0, LOG_NONE⟩ none =
      ((haltLoop envReadsFail 0 ⟨2, LOG_NONE⟩ none).1,
       ⟨LOG_NONE, .apWrite MEM_DRW haltRequestPattern true⟩ ::
         ⟨LOG_NONE, .apRead MEM_DRW none⟩ ::
           (haltLoop envReadsFail 0 ⟨2, LOG_NONE⟩ none).2.1,
       (haltLoop envReadsFail 0 ⟨2, LOG_NONE⟩ none).2.2) := by
  refine ⟨C9_transport_amended.1 envReadsFail st0 rfl,
    C9_transport_amended.2.1 envReadsFail st0 rfl,
    C9_transport_amended.2.2.1 envReadsFail st0 REG_MDM_STATUS 1 1 0 rfl,
    ?_, ?_, ?_, ?_, ?_, ?_, ?_,
    C9_transport_amended.2.2.2.2.2.2.2.2.2.2.1 envC9 ⟨8, LOG_NONE⟩ 0 none (by decide),
    C9_transport_amended.2.2.2.2.2.2.2.2.2.2.2 envReadsFail ⟨0, LOG_NONE⟩ 0 none rfl rfl⟩
  · rw [C9_transport_amended.2.2.2.1 envFail1 st0 rfl]
  · rw [C9_transport_amended.2.2.2.2.1 envW62 st0 ⟨2, LOG_NORMAL⟩
      [⟨LOG_NORMAL, .apWrite REG_MDM_CONTROL REG_MDM_CONTROL_CORE_HOLD_RESET true⟩,
       ⟨LOG_NORMAL, .apRead REG_MDM_STATUS (some 8)⟩]
      (by decide) (by decide)]
  · rw [C9_transport_amended.2.2.2.2.2.1 envW66 st0 ⟨2, LOG_NORMAL⟩ ⟨4, LOG_NORMAL⟩
      [⟨LOG_NORMAL, .apWrite REG_MDM_CONTROL REG_MDM_CONTROL_CORE_HOLD_RESET true⟩,
       ⟨LOG_NORMAL, .apRead REG_MDM_STATUS (some 8)⟩]
      [⟨LOG_NORMAL, .apRead REG_MDM_STATUS (some 0)⟩] 0
      (by decide) (by decide) (by decide) (by decide)]
  · rw [C9_transport_amended.2.2.2.2.2.2.1 envFail4 st0
      ⟨2, LOG_NORMAL⟩ ⟨5, LOG_NORMAL⟩ ⟨6, LOG_NORMAL⟩
      [⟨LOG_NORMAL, .apWrite REG_MDM_CONTROL REG_MDM_CONTROL_CORE_HOLD_RESET true⟩,
       ⟨LOG_NORMAL, .apRead REG_MDM_STATUS (some 8)⟩]
      [⟨LOG_NORMAL, .apWrite REG_MDM_CONTROL REG_MDM_CONTROL_SYS_RESET_REQ true⟩,
       ⟨LOG_NORMAL, .apRead REG_MDM_STATUS (some 0)⟩,
       ⟨LOG_NORMAL, .apWrite REG_MDM_CONTROL 0 true⟩]
      [⟨LOG_NORMAL, .apRead REG_MDM_STATUS (some 10)⟩]
      (by decide) (by decide) (by decide) (by decide)]
  · rw [C9_transport_amended.2.2.2.2.2.2.2.1 envW83 st0
      ⟨2, LOG_NORMAL⟩ ⟨5, LOG_NORMAL⟩ ⟨6, LOG_NORMAL⟩
      [⟨LOG_NORMAL, .apWrite REG_MDM_CONTROL REG_MDM_CONTROL_CORE_HOLD_RESET true⟩,
       ⟨LOG_NORMAL, .apRead REG_MDM_STATUS (some 8)⟩]
      [⟨LOG_NORMAL, .apWrite REG_MDM_CONTROL REG_MDM_CONTROL_SYS_RESET_REQ true⟩,
       ⟨LOG_NORMAL, .apRead REG_MDM_STATUS (some 0)⟩,
       ⟨LOG_NORMAL, .apWrite REG_MDM_CONTROL 0 true⟩]
      [⟨LOG_NORMAL, .apRead REG_MDM_STATUS (some 10)⟩]
      (by decide) (by decide) (by decide) (by decide) (by decide)]
  · rw [C9_transport_amended.2.2.2.2.2.2.2.2.1 envW166 st0 34
      rfl (by decide) (by decide) (by decide) (by decide)]
  · rw [C9_transport_amended.2.2.2.2.2.2.2.2.2.1 envF183 st0 34
      ⟨3, LOG_NORMAL⟩ ⟨4, LOG_NORMAL⟩
      [⟨LOG_NORMAL, .apRead REG_MDM_STATUS (some 35)⟩]
      [⟨LOG_NORMAL, .apRead REG_MDM_CONTROL (some 0)⟩] 35 0
      rfl (by decide) (by decide) (by decide) rfl (by decide) (by decide) rfl]

/-- The `dhcsr` variable of the halt-race loop changes only through a
successful DRW readback: when the loop's final value differs from the
entry value, it is `some v` for a value `v` actually read back in the
loop's trace. -/
theorem haltLoop_dh_assigned (env : Env) :
    ∀ fuel (st : St) dh0, (haltLoop env fuel st dh0).2.2.2 ≠ dh0 →
      ∃ v, (haltLoop env fuel st dh0).2.2.2 = some v ∧
        ⟨st.logLevel, Ev.apRead MEM_DRW (some v)⟩ ∈ (haltLoop env fuel st dh0).2.1 := by
  intro fuel
  induction fuel with
  | zero => intro st dh0 h; simp [haltLoop] at h
  | succ k ih =>
    intro st dh0 h
    simp only [haltLoop, apWrite, apRead] at h ⊢
    cases hw : env.apWriteFn st.tick MEM_DRW haltRequestPattern with
    | false =>
      simp only [hw, Bool.not_false, if_true] at h ⊢
      obtain ⟨v, h1, h2⟩ := ih ⟨st.tick + 1, st.logLevel⟩ dh0 h
      have h2h : (⟨st.logLevel, Ev.apRead MEM_DRW (some v)⟩ : TEv) ∈
          (haltLoop env k ⟨st.tick + 1, st.logLevel⟩ dh0).2.1 := h2
      exact ⟨v, h1, List.mem_append.mpr (Or.inr h2h)⟩
    | true =>
      simp only [hw, Bool.not_true, Bool.false_eq_true, if_false] at h ⊢
      cases hr : env.apReadFn (st.tick + 1) MEM_DRW with
      | none =>
        simp only [hr] at h ⊢
        obtain ⟨v, h1, h2⟩ := ih ⟨st.tick + 1 + 1, st.logLevel⟩ dh0 h
        have h2h : (⟨st.logLevel, Ev.apRead MEM_DRW (some v)⟩ : TEv) ∈
            (haltLoop env k ⟨st.tick + 1 + 1, st.logLevel⟩ dh0).2.1 := h2
        exact ⟨v, h1, List.mem_append.mpr (Or.inr h2h)⟩
      | some v =>
        by_cases hv : v &&& (1 <<< 17) ≠ 0
        · simp only [hr, if_pos hv] at h ⊢
          exact ⟨v, rfl, List.mem_append.mpr (Or.inr (by simp))⟩
        · simp only [hr, if_neg hv] at h ⊢
          by_cases hne : (haltLoop env k ⟨st.tick + 1 + 1, st.logLevel⟩ (some v)).2.2.2 = some v
          · rw [hne]
            exact ⟨v, rfl, List.mem_append.mpr (Or.inl (by simp))⟩
          · obtain ⟨u, h1, h2⟩ := ih ⟨st.tick + 1 + 1, st.logLevel⟩ (some v) hne
            have h2h : (⟨st.logLevel, Ev.apRead MEM_DRW (some u)⟩ : TEv) ∈
                (haltLoop env k ⟨st.tick + 1 + 1, st.logLevel⟩ (some v)).2.1 := h2
            exact ⟨u, h1, List.mem_append.mpr (Or.inr h2h)⟩

/-- Environment for the C10 scenario: phases 1–4 of `resetHalt` are
served, every write succeeds, and every DRW readback fails at the
transport level, so the `dhcsr` variable is never assigned in any of the
200 attempts. -/
def envNoRead : Env :=
  ⟨fun t reg =>
      if reg = MEM_DRW then none
      else if t = 1 then some 8 else if t = 3 then some 0 else some 10,
    fun _ _ _ => true, fun _ _ _ => true, fun _ _ _ => true⟩

/-- C10: the `dhcsr` variable is assigned only by a successful readback —
whenever the halt-race loop's final value differs from its entry value it
comes with a successful DRW read event in the trace; and at `envNoRead`,
where no readback ever succeeds in all 200 attempts, `resetHalt` fails
and the emitted halt-failure diagnostic formats the never-assigned marker
(`none`) — the reported value is well-defined only when at least one
readback succeeded. -/
theorem C10_dhcsr_uninitialized :
    (∀ (env : Env) (st : St) (fuel : Nat) (dh0 : Option Nat),
      (haltLoop env fuel st dh0).2.2.2 ≠ dh0 →
      ∃ v, (haltLoop env fuel st dh0).2.2.2 = some v ∧
        ⟨st.logLevel, Ev.apRead MEM_DRW (some v)⟩ ∈ (haltLoop env fuel st dh0).2.1) ∧
    (resetHalt envNoRead st0).2.2 = false ∧
    (⟨LOG_NORMAL, Ev.logMsg LOG_ERROR msgHaltFail [none]⟩ : TEv) ∈
      (resetHalt envNoRead st0).2.1 :=
  ⟨fun env st fuel dh0 => haltLoop_dh_assigned env fuel st dh0,
   by decide, by decide⟩

/-- C10 witness: at `envHalt 5` the loop's final `dhcsr` differs from the
entry value, so the theorem yields the successful readback event. -/
theorem C10_dhcsr_uninitialized_witness :
    ∃ v, (haltLoop (envHalt 5) haltRetriesInit ⟨8, LOG_NONE⟩ none).2.2.2 = some v ∧
      ⟨LOG_NONE, Ev.apRead MEM_DRW (some v)⟩ ∈
        (haltLoop (envHalt 5) haltRetriesInit ⟨8, LOG_NONE⟩ none).2.1 :=
  C10_dhcsr_uninitialized.1 (envHalt 5) ⟨8, LOG_NONE⟩ haltRetriesInit none (by decide)

/-- C3 witness: at `envNoRead` (halt never achieved) the phase restores
the pre-call log level and the trace carries exactly one
addressing-window reset. -/
theorem C3_haltPhase_cleanup_witness :
    ((resetHaltPhase5 envNoRead st0).1).logLevel = st0.logLevel ∧
    ((resetHaltPhase5 envNoRead st0).2.1).countP
      (fun te => te.ev == Ev.initMemPort) = 1 := by
  obtain ⟨l, f, -, -, -, -, h5, h6⟩ := C3_haltPhase_cleanup envNoRead st0
  exact ⟨h5, h6⟩
